import Mathlib

/-!
Verification development for the RemiFi bot's cross-chain transfer orchestrator
(`CircleService.crossChainTransfer`, `CircleService.waitForAttestation`) and the
fiat on-ramp deposit flow (`CircleBusinessService`).

The JavaScript source is embedded shallowly:
* the amount conversion `BigInt(amount) * BigInt(10 ** 6)` is modelled by
  `jsBigIntOfString` / `usdcBaseUnits`, following ECMAScript `StringToBigInt`
  semantics on decimal numerals (whitespace-trimmed, optional sign, digit
  string; a string containing a decimal point is a `SyntaxError`, i.e. `none`);
* the burn fee `usdcAmount / BigInt(5000)` is modelled by `maxFee` using
  truncating division (`Int.tdiv`), which is what BigInt division does;
* the recipient encoding `pad(destinationAddress)` is modelled by `pad`
  (spec-modelled, see its doc comment: the source never defines or imports
  `pad`);
* the attestation poll loop is modelled by `pollAttest` / `waitForAttestation`;
* `crossChainTransfer` is modelled by `runTransfer`, a sequential composition
  of stages over an environment (`TEnv`) that supplies the external world's
  responses (transaction ids, status-poll sequences, attestation responses,
  and whether each awaited progress message succeeds).  Each stage emits a
  list of observable events (`Ev`) — submissions, status polls, attestation
  requests and progress notifications — and either succeeds, throws, or
  (when the environment provides no further poll statuses for an unbounded
  poll loop) diverges (`StepRes.hung`);
* the deposit flow `executeMockDepositFlow` (with its helpers
  `findOrCreateBankAccount` / `findOrCreateRecipientAddress`) is modelled the
  same way over `DEnv` / `DEv`.
-/

namespace RemiFi

/-! ## String to BigInt conversion (src/unnamed/part_003 line 192) -/

/-- Whitespace trimming on a character list, as `StringToBigInt` trims its
input before parsing. -/
def trimChars (l : List Char) : List Char :=
  ((l.dropWhile Char.isWhitespace).reverse.dropWhile Char.isWhitespace).reverse

/-- Numeric value of a digit string, most significant digit first. -/
def natOfDigits (l : List Char) : Nat :=
  l.foldl (fun a c => a * 10 + (c.toNat - 48)) 0

/-- Parses a nonempty all-digit character list; any other list is a parse
error. -/
def digitsToNat (l : List Char) : Option Nat :=
  if l ≠ [] ∧ l.all Char.isDigit then some (natOfDigits l) else none

/-- Model of ECMAScript `BigInt(string)` on decimal numerals: trim whitespace,
empty means `0`, an optional sign followed by digits parses, and anything
else — in particular any string containing a decimal point, such as `"0.5"` —
throws a `SyntaxError` (modelled as `none`).  (The `0x`/`0o`/`0b` radix
prefixes JavaScript also accepts are outside the decimal-amount domain the
claims quantify over and are modelled as `none` as well.) -/
def jsStrToBigInt (l : List Char) : Option Int :=
  match trimChars l with
  | [] => some 0
  | c :: rest =>
    if c = '+' then (digitsToNat rest).map Int.ofNat
    else if c = '-' then (digitsToNat rest).map (fun n => -(n : Int))
    else (digitsToNat (c :: rest)).map Int.ofNat

/-- Model of `BigInt(amount)` on the amount string. -/
def jsBigIntOfString (s : String) : Option Int :=
  jsStrToBigInt s.data

/-- Model of line 192 of `crossChainTransfer`:
`const usdcAmount = BigInt(amount) * BigInt(10 ** 6);`
(`10 ** 6` is the exact Number `1000000`). -/
def usdcBaseUnits (amount : String) : Option Int :=
  (jsBigIntOfString amount).map (fun v => v * 1000000)

/-! ## Burn max fee (src/unnamed/part_003 line 249) -/

/-- Model of `const maxFee = usdcAmount / BigInt(5000);` — BigInt division
truncates toward zero, which is `Int.tdiv`. -/
def maxFee (usdcAmount : Int) : Int :=
  Int.tdiv usdcAmount 5000

/-! ## Recipient padding (src/unnamed/part_003 line 247) -/

/-- Modelled from the spec: the source computes
`const mintRecipientAddressInBytes32 = pad(destinationAddress);` but the
`pad` function is neither defined nor imported anywhere under src (the
viem-style helper the line evidently intends is missing).  The spec describes
it as "the destination address encoded as a fixed-width 32-byte left-padded
value", so we model addresses as byte lists and left-pad with zero bytes to
32 bytes.  A well-formed destination address is 20 bytes. -/
def pad (addr : List Nat) : List Nat :=
  List.replicate (32 - addr.length) 0 ++ addr

/-- Extraction of the original 20-byte address from its 32-byte left-padded
encoding: drop the 12 padding bytes. -/
def unpadAddress (b : List Nat) : List Nat :=
  b.drop 12

/-! ## Observable events of the transfer orchestration -/

/-- Tag naming which of the three contract-call transactions a submission is. -/
inductive TxTag
  | approve
  | burn
  | receive
  deriving DecidableEq

/-- Payload of a `createContractExecutionTransaction` submission, carrying the
numeric arguments the source computes for it. -/
inductive TxKind
  | approve (allowanceBaseUnits : Int)
  | burn (amountBaseUnits feeMax : Int) (destDomain : Nat)
  | receive (message attestation : String)
  deriving DecidableEq

/-- Tag of a submission payload. -/
def TxKind.tag : TxKind → TxTag
  | .approve _ => .approve
  | .burn _ _ _ => .burn
  | .receive _ _ => .receive

/-- Observable external actions of `crossChainTransfer`: a progress message
delivered to the chat (numbered by its position in the source, 0–7), a
contract-call transaction submission, a transaction status poll
(`getTransaction`) observing a state string, and an attestation service
request (numbered by attempt). -/
inductive Ev
  | notify (k : Nat)
  | submitTx (kind : TxKind) (txId : String)
  | pollTx (txId : String) (state : String)
  | attestReq (attempt : Nat)
  deriving DecidableEq

/-! ## Attestation poller (src/unnamed/part_003 lines 387–427) -/

/-- Response of the attestation service to one request: an HTTP 200 carrying
`messages[0]`'s status/message/attestation fields, a 404, or any other
error. -/
inductive AttestResp
  | http200 (status message attestation : String)
  | notFound
  | otherError (msg : String)
  deriving DecidableEq

/-- Whether `waitForAttestation` retries after this response: a 200 whose
status is not `"complete"` falls through to the sleep-and-retry, and a 404
is caught and retried; any other error is rethrown. -/
def AttestResp.retryable : AttestResp → Bool
  | .http200 status _ _ => !(status == "complete")
  | .notFound => true
  | .otherError _ => false

/-- Outcome of the attestation wait: the `{message, attestation}` pair, the
`"Timeout waiting for attestation"` error, or a propagated non-404 error. -/
inductive AttOut
  | success (message attestation : String)
  | timeout
  | failure (msg : String)
  deriving DecidableEq

/-- Model of the `while (attempts < maxAttempts)` loop of
`waitForAttestation`: `attempt` is the 1-based number of the next request,
`fuel` the number of attempts remaining.  Each iteration issues one request
(event `Ev.attestReq`), returns on status `"complete"`, retries on 404 or on
a 200 whose status is not `"complete"`, and rethrows any other error. -/
def pollAttest (svc : Nat → AttestResp) : Nat → Nat → List Ev × AttOut
  | _, 0 => ([], .timeout)
  | attempt, fuel + 1 =>
    match svc attempt with
    | .http200 status m a =>
      if status = "complete" then ([.attestReq attempt], .success m a)
      else
        let r := pollAttest svc (attempt + 1) fuel
        (.attestReq attempt :: r.1, r.2)
    | .notFound =>
      let r := pollAttest svc (attempt + 1) fuel
      (.attestReq attempt :: r.1, r.2)
    | .otherError msg => ([.attestReq attempt], .failure msg)

/-- Model of `waitForAttestation`: at most `maxAttempts = 30` requests,
starting at attempt 1. -/
def waitForAttestation (svc : Nat → AttestResp) : List Ev × AttOut :=
  pollAttest svc 1 30

/-- Service stub that always answers 404. -/
def svcNever : Nat → AttestResp := fun _ => .notFound

/-- Service stub that answers `"complete"` immediately. -/
def svcFirst : Nat → AttestResp := fun _ => .http200 "complete" "0xmsg" "0xsig"

/-- Service stub: 404 on attempt 1, a non-404 error on attempt 2. -/
def svcBoom : Nat → AttestResp := fun j =>
  if j = 2 then .otherError "boom" else .notFound

/-! ## Sequential stages with early exit

`crossChainTransfer` is a straight-line `async` function inside one `try`
block whose `catch` logs and rethrows, so its semantics is sequential
composition with early exit on the first thrown error.  A stage returns the
list of events it emitted together with a result: success, a thrown error
(carrying the error message), or — for the unbounded confirmation poll loops
when the environment supplies no further statuses — divergence. -/

/-- Result of a stage: success, thrown error, or divergence of an unbounded
poll loop. -/
inductive StepRes (α : Type)
  | ok (a : α)
  | err (msg : String)
  | hung
  deriving DecidableEq

/-- Sequential composition with early exit: on success the second stage runs
and both event lists concatenate; a thrown error or divergence propagates. -/
def bindStep {E α β : Type} (x : List E × StepRes α)
    (f : α → List E × StepRes β) : List E × StepRes β :=
  match x with
  | (t, .ok a) => (t ++ (f a).1, (f a).2)
  | (t, .err m) => (t, .err m)
  | (t, .hung) => (t, .hung)

/-- State and transaction hash observed by one `getTransaction` poll. -/
structure TxStatus where
  state : String
  txHash : String
  deriving DecidableEq

/-- Environment of one `crossChainTransfer` run: everything the external
world answers.  `msgOk k` says whether the `k`-th (0-based, in source order)
awaited `bot.sendMessage` resolves; `sourceConfigured` / `destDomain` /
`destConfigured` model the `CCTP.contracts` / `CCTP.domains` registry
lookups for the source and destination networks; each transaction gets the
id the wallet SDK returns for it and the sequence of states its status polls
observe; `attest` is the attestation service. -/
structure TEnv where
  msgOk : Nat → Bool
  sourceConfigured : Bool
  approveTxId : String
  approveStatuses : List TxStatus
  destDomain : Option Nat
  burnTxId : String
  burnStatuses : List TxStatus
  attest : Nat → AttestResp
  destConfigured : Bool
  receiveTxId : String
  receiveStatuses : List TxStatus

/-- Model of one awaited `bot.sendMessage`: on success it emits a notify
event; a rejection is thrown (the enclosing catch rethrows it). -/
def notifyStage (env : TEnv) (k : Nat) : List Ev × StepRes Unit :=
  if env.msgOk k then ([.notify k], .ok ()) else ([], .err "sendMessage failed")

/-- Model of reading a field off a possibly-missing registry entry
(`sourceConfig.usdc`, `destinationConfig.messageTransmitter`): a missing
entry makes the field access throw a `TypeError`. -/
def cfgStage (present : Bool) : List Ev × StepRes Unit :=
  if present then ([], .ok ()) else ([], .err "TypeError: property of undefined")

/-- Model of `CCTP.domains[destinationNetwork].toString()` in the burn
parameters: a missing destination entry throws a `TypeError`. -/
def destDomainStage (env : TEnv) : List Ev × StepRes Nat :=
  match env.destDomain with
  | some d => ([], .ok d)
  | none => ([], .err "TypeError: property of undefined")

/-- Model of line 192, `BigInt(amount) * BigInt(10 ** 6)`. -/
def amountStage (amount : String) : List Ev × StepRes Int :=
  match jsBigIntOfString amount with
  | some v => ([], .ok (v * 1000000))
  | none => ([], .err "SyntaxError: Cannot convert amount to a BigInt")

/-- Model of one `createContractExecutionTransaction` call. -/
def submitStage (k : TxKind) (txId : String) : List Ev × StepRes Unit :=
  ([.submitTx k txId], .ok ())

/-- Model of the `do { getTransaction … } while (state !== "CONFIRMED")`
confirmation loops: each poll emits an event with the observed state; a
`"FAILED"` state throws `failText` immediately; a `"CONFIRMED"` state exits
returning the last status (whose `txHash` the burn step reads); any other
state sleeps and repolls.  An exhausted status list models the loop polling
forever. -/
def pollStage (failText : String) (txId : String) :
    List TxStatus → List Ev × StepRes TxStatus
  | [] => ([], .hung)
  | s :: rest =>
    if s.state = "FAILED" then ([.pollTx txId "FAILED"], .err failText)
    else if s.state = "CONFIRMED" then ([.pollTx txId "CONFIRMED"], .ok s)
    else (.pollTx txId s.state :: (pollStage failText txId rest).1,
          (pollStage failText txId rest).2)

/-- Model of the `await this.waitForAttestation(…)` call inside the transfer:
a timeout or non-404 error is thrown, success yields the
`{message, attestation}` pair. -/
def attestStage (svc : Nat → AttestResp) : List Ev × StepRes (String × String) :=
  match waitForAttestation svc with
  | (t, AttOut.success m a) => (t, .ok (m, a))
  | (t, AttOut.timeout) => (t, .err "Timeout waiting for attestation")
  | (t, AttOut.failure msg) => (t, .err msg)

/-- Model of `CircleService.crossChainTransfer` (src/unnamed/part_003 lines
180–379) over an environment.  In source order: the amount conversion; the
"Step 1/4" message; the `sourceConfig` field accesses; the approve
submission and its confirmation loop; the approval-confirmed and "Step 2/4"
messages; the destination-domain lookup inside the burn parameters; the burn
submission and its confirmation loop; the burn-confirmed and "Step 3/4"
messages; the attestation wait; the attestation-received and "Step 4/4"
messages; the `destinationConfig` field access; the receive submission and
its confirmation loop; the final confirmation message; then the three
transaction ids are returned.  (The 32-byte recipient encoding the burn
parameters also carry is modelled separately by `pad`; the fixed
finality-threshold parameter `"1000"` and the zero destination-caller word
are constants that do not affect control flow.) -/
def runTransfer (env : TEnv) (amount : String) :
    List Ev × StepRes (String × String × String) :=
  bindStep (amountStage amount) fun usdc =>
  bindStep (notifyStage env 0) fun _ =>
  bindStep (cfgStage env.sourceConfigured) fun _ =>
  bindStep (submitStage (.approve usdc) env.approveTxId) fun _ =>
  bindStep (pollStage "Approve transaction failed" env.approveTxId
      env.approveStatuses) fun _ =>
  bindStep (notifyStage env 1) fun _ =>
  bindStep (notifyStage env 2) fun _ =>
  bindStep (destDomainStage env) fun destDom =>
  bindStep (submitStage (.burn usdc (maxFee usdc) destDom) env.burnTxId) fun _ =>
  bindStep (pollStage "Burn transaction failed" env.burnTxId
      env.burnStatuses) fun _ =>
  bindStep (notifyStage env 3) fun _ =>
  bindStep (notifyStage env 4) fun _ =>
  bindStep (attestStage env.attest) fun att =>
  bindStep (notifyStage env 5) fun _ =>
  bindStep (notifyStage env 6) fun _ =>
  bindStep (cfgStage env.destConfigured) fun _ =>
  bindStep (submitStage (.receive att.1 att.2) env.receiveTxId) fun _ =>
  bindStep (pollStage "Receive transaction failed" env.receiveTxId
      env.receiveStatuses) fun _ =>
  bindStep (notifyStage env 7) fun _ =>
  ([], .ok (env.approveTxId, env.burnTxId, env.receiveTxId))

/-- Projection of a trace event to the tag of the contract-call submission it
is, if it is one. -/
def evSubmitTag : Ev → Option TxTag
  | .submitTx k _ => some k.tag
  | _ => none

/-- Tags of the contract-call submissions of a trace, in order. -/
def submitTags (t : List Ev) : List TxTag :=
  t.filterMap evSubmitTag

/-! ## The failed-poll invariant

A status poll that observes `"FAILED"` throws at once, so across the whole
orchestration a `"FAILED"` poll event can only ever be the final event of
the trace, with the run ending in a thrown error. -/

/-- No status poll in the trace observed a `"FAILED"` state. -/
def noFailPoll (t : List Ev) : Prop :=
  ∀ id, Ev.pollTx id "FAILED" ∉ t

/-- Invariant of every stage and of their sequential compositions: either
the trace has no `"FAILED"` poll, or it ends with one and the result is a
thrown error. -/
def InvStep {α : Type} (x : List Ev × StepRes α) : Prop :=
  noFailPoll x.1 ∨
    ∃ t' id, x.1 = t' ++ [Ev.pollTx id "FAILED"] ∧ noFailPoll t' ∧
      ∃ m, x.2 = StepRes.err m

/-! ## Concrete environments -/

/-- Environment of a fully successful configured transfer: every progress
message delivers, both registry lookups succeed, each transaction confirms
on its first status poll, and the attestation completes on the first
attempt. -/
def envOK : TEnv :=
  { msgOk := fun _ => true
    sourceConfigured := true
    approveTxId := "a"
    approveStatuses := [⟨"CONFIRMED", "ha"⟩]
    destDomain := some 26
    burnTxId := "b"
    burnStatuses := [⟨"CONFIRMED", "hb"⟩]
    attest := fun _ => .http200 "complete" "0xmsg" "0xsig"
    destConfigured := true
    receiveTxId := "r"
    receiveStatuses := [⟨"CONFIRMED", "hr"⟩] }

/-- Like `envOK` except the burn transaction's first status poll reports
`"FAILED"`. -/
def envBurnFail : TEnv := { envOK with burnStatuses := [⟨"FAILED", "hb"⟩] }

/-- Like `envOK` except every progress-message send rejects. -/
def envMsgFail : TEnv := { envOK with msgOk := fun _ => false }

/-- Trace of `runTransfer envOK "25"`. -/
def trOK : List Ev :=
  [.notify 0, .submitTx (.approve 25000000) "a", .pollTx "a" "CONFIRMED",
    .notify 1, .notify 2, .submitTx (.burn 25000000 5000 26) "b",
    .pollTx "b" "CONFIRMED", .notify 3, .notify 4, .attestReq 1,
    .notify 5, .notify 6, .submitTx (.receive "0xmsg" "0xsig") "r",
    .pollTx "r" "CONFIRMED", .notify 7]

/-- Events preceding the failed burn poll in `runTransfer envBurnFail "25"`. -/
def preBF : List Ev :=
  [.notify 0, .submitTx (.approve 25000000) "a", .pollTx "a" "CONFIRMED",
    .notify 1, .notify 2, .submitTx (.burn 25000000 5000 26) "b"]

/-- Trace of `runTransfer envBurnFail "25"`: it ends at the failed burn
poll. -/
def trBF : List Ev := preBF ++ [Ev.pollTx "b" "FAILED"]

/-! ## Deposit flow (`CircleBusinessService`)

The current revision of `circleBusinessService.js` is the one embedded in
src/README.md (lines 180–335, under the header
`FILE: src/services/circleBusinessService.js`); it is the revision the live
`telegramService.js` calls with `(user, amount, sourceWallet,
destinationWallet, circleService, bot, chatId)`.  The copies in
src/unnamed/part_001 and part_002 are superseded revisions of the same
service; where they differ (progress messages inside the bank-account
resolution, and the try/catch with a faucet-fallback throw around the
custodial transfer) the README revision is embedded. -/

/-- User-profile fields the deposit flow reads:
`circle_bank_account_id` and `circle_recipient_address_id`. -/
structure DUser where
  bankId : Option String
  recipId : Option String

/-- Observable external actions of the deposit flow: a chat message send
(numbered by source position: 0 the un-awaited "getting your bank info"
send, 1 the awaited "Bank info found" send of the stored-id branch, 2 the
un-awaited mock-billing-info send and 3 the awaited "Bank info added" send
of the creation branch, 4–6 the un-awaited wire-details / "Submitting your
deposit" / "being processed" sends, 7–9 the awaited arrival, bridge and
"All done" sends), the bank-account creation `POST`, a persist of an id to
the user profile, the wire-instructions `GET`, the mock wire `POST`, the
recipient-address creation `POST`, the custodial transfer `POST`, and the
delegated `crossChainTransfer` call. -/
inductive DEv
  | sendMsg (k : Nat)
  | createBank
  | persistBank (id : String)
  | getInstructions (bankId : String)
  | mockWire
  | createRecip
  | persistRecip (id : String)
  | provTransfer (recipId : String)
  | bridgeCall
  deriving DecidableEq

/-- Environment of one deposit run: the ids the provider returns from the
two creation calls, whether each creation call and the custodial transfer
succeed, whether each awaited message send (indexed by its site number)
resolves, and the delegated bridge outcome. -/
structure DEnv where
  newBankId : String
  newRecipId : String
  createBankOk : Bool
  createRecipOk : Bool
  transferOk : Bool
  dMsgOk : Nat → Bool
  bridgeRes : StepRes (String × String × String)

/-- Model of an un-awaited `bot.sendMessage(...)` at site `k`
(fire-and-forget: a rejection is an unhandled promise and cannot abort the
flow). -/
def fireAndForget (k : Nat) : List DEv × StepRes Unit :=
  ([.sendMsg k], .ok ())

/-- Model of an `await bot.sendMessage(...)` at site `k`: a rejection is
thrown and aborts the flow. -/
def awaitedMsg (env : DEnv) (k : Nat) : List DEv × StepRes Unit :=
  if env.dMsgOk k then ([.sendMsg k], .ok ()) else
    ([], .err "sendMessage failed")

/-- Model of `CircleBusinessService.findOrCreateBankAccount`
(src/README.md lines 204–237): with a stored `circle_bank_account_id` it
awaits the "Bank info found" send (site 1) and returns the stored id;
otherwise it fires the un-awaited mock-billing-info send (site 2), runs the
`POST /businessAccount/banks/wires` creation call, persists the returned id
to the profile, awaits the "Bank info added successfully" send (site 3) and
returns the new id.  A creation failure propagates before any persist.
(The randomly generated account number and billing details do not affect
control flow and are not modelled.) -/
def findOrCreateBankAccount (u : DUser) (env : DEnv) :
    List DEv × StepRes String :=
  match u.bankId with
  | some id =>
    if env.dMsgOk 1 then ([.sendMsg 1], .ok id)
    else ([], .err "sendMessage failed")
  | none =>
    if env.createBankOk then
      if env.dMsgOk 3 then
        ([.sendMsg 2, .createBank, .persistBank env.newBankId, .sendMsg 3],
          .ok env.newBankId)
      else ([.sendMsg 2, .createBank, .persistBank env.newBankId],
        .err "sendMessage failed")
    else ([.sendMsg 2, .createBank], .err "create bank account failed")

/-- Model of `CircleBusinessService.findOrCreateRecipientAddress`
(src/README.md lines 245–265): reuse the stored
`circle_recipient_address_id`, or create one and persist the returned id. -/
def findOrCreateRecipientAddress (u : DUser) (env : DEnv) :
    List DEv × StepRes String :=
  match u.recipId with
  | some id => ([], .ok id)
  | none =>
    if env.createRecipOk then
      ([.createRecip, .persistRecip env.newRecipId], .ok env.newRecipId)
    else ([.createRecip], .err "create recipient address failed")

/-- Text of the faucet-fallback error the deposit flow throws when the
custodial transfer is rejected (src/README.md line 309), up to the
destination wallet address it ends with. -/
def faucetText : String :=
  "It looks like your wallet is not enabled yet to be used for deposits. Please contact the RemiFi Team to enable it.\n\nAlternatively, for testing purposes, you can get USDC right away from the Circle faucet(https://faucet.circle.com/), your wallet address in Arc-Testnet is:\n\n"

/-- The complete faucet-fallback error message: the fixed instruction text
followed by the destination wallet address. -/
def faucetFallbackMessage (destAddr : String) : String :=
  faucetText ++ destAddr

/-- Model of the `try { POST /businessAccount/transfers } catch`
(src/README.md lines 300–310): on success the transfer call is one event;
a rejection is caught and a new error is thrown whose message is the
faucet-fallback instruction naming the destination wallet address — the
provider's own error is discarded. -/
def provTransferStage (env : DEnv) (recipId destAddr : String) :
    List DEv × StepRes Unit :=
  if env.transferOk then ([.provTransfer recipId], .ok ())
  else ([.provTransfer recipId], .err (faucetFallbackMessage destAddr))

/-- Model of the delegated `circleService.crossChainTransfer(...)` call. -/
def bridgeStage (env : DEnv) : List DEv × StepRes (String × String × String) :=
  ([.bridgeCall], env.bridgeRes)

/-- Model of `CircleBusinessService.executeMockDepositFlow`
(src/README.md lines 277–332), in source order: the un-awaited "getting
your bank info" send (site 0); the bank-account resolution (sites 1–3
inside it); the wire-instructions `GET`; the un-awaited wire-details and
"Submitting your deposit" sends (sites 4, 5); the mock wire `POST`; the
recipient-address resolution; the un-awaited "being processed" send
(site 6); the custodial transfer `POST` inside its try/catch; the awaited
arrival and bridge sends (sites 7, 8); the delegated cross-chain transfer;
the awaited "All done" send (site 9); then the bridge result is returned.
`destAddr` is `destinationWallet.address`.  (The wire-instructions and
mock-wire calls are modelled as succeeding; no claim concerns their
failure.) -/
def executeMockDepositFlow (u : DUser) (destAddr : String) (env : DEnv) :
    List DEv × StepRes (String × String × String) :=
  bindStep (fireAndForget 0) fun _ =>
  bindStep (findOrCreateBankAccount u env) fun bankId =>
  bindStep (([DEv.getInstructions bankId], StepRes.ok ())) fun _ =>
  bindStep (fireAndForget 4) fun _ =>
  bindStep (fireAndForget 5) fun _ =>
  bindStep (([DEv.mockWire], StepRes.ok ())) fun _ =>
  bindStep (findOrCreateRecipientAddress u env) fun recipId =>
  bindStep (fireAndForget 6) fun _ =>
  bindStep (provTransferStage env recipId destAddr) fun _ =>
  bindStep (awaitedMsg env 7) fun _ =>
  bindStep (awaitedMsg env 8) fun _ =>
  bindStep (bridgeStage env) fun ids =>
  bindStep (awaitedMsg env 9) fun _ =>
  ([], .ok ids)

/-- User profile with neither a stored bank-account id nor a stored
recipient-address id. -/
def uFresh : DUser := ⟨none, none⟩

/-- User profile with both provider ids already stored. -/
def uStored : DUser := ⟨some "bank1", some "recip1"⟩

/-- Deposit environment in which every provider call succeeds. -/
def denvOK : DEnv :=
  { newBankId := "nb"
    newRecipId := "nr"
    createBankOk := true
    createRecipOk := true
    transferOk := true
    dMsgOk := fun _ => true
    bridgeRes := .ok ("a", "b", "r") }

/-- Like `denvOK` except the custodial transfer call rejects. -/
def denvFail : DEnv := { denvOK with transferOk := false }

/-- Trace of `executeMockDepositFlow uFresh "0xdest" denvOK`. -/
def trFresh : List DEv :=
  [.sendMsg 0, .sendMsg 2, .createBank, .persistBank "nb", .sendMsg 3,
    .getInstructions "nb", .sendMsg 4, .sendMsg 5, .mockWire, .createRecip,
    .persistRecip "nr", .sendMsg 6, .provTransfer "nr", .sendMsg 7,
    .sendMsg 8, .bridgeCall, .sendMsg 9]

/-- Trace of `executeMockDepositFlow uStored "0xdest" denvOK`. -/
def trStored : List DEv :=
  [.sendMsg 0, .sendMsg 1, .getInstructions "bank1", .sendMsg 4, .sendMsg 5,
    .mockWire, .sendMsg 6, .provTransfer "recip1", .sendMsg 7, .sendMsg 8,
    .bridgeCall, .sendMsg 9]

/-- Trace of `executeMockDepositFlow uStored "0xdest" denvFail`: the run
ends at the rejected custodial transfer. -/
def trStoredFail : List DEv :=
  [.sendMsg 0, .sendMsg 1, .getInstructions "bank1", .sendMsg 4, .sendMsg 5,
    .mockWire, .sendMsg 6, .provTransfer "recip1"]

/-- Every event of a stage's trace satisfies `Q` (used to show that a run
truncated at a failed progress-message send emits no submission of a later
step). -/
def AllEv {α : Type} (Q : Ev → Prop) (x : List Ev × StepRes α) : Prop :=
  ∀ e ∈ x.1, Q e

/-- Environment identical to `envOK` except that the seventh awaited
progress send of `crossChainTransfer` (the "Step 4/4" message, index 6)
rejects. -/
def envMsg6Fail : TEnv := { envOK with msgOk := fun j => !(j == 6) }

/-- Trace of `runTransfer envMsg6Fail "25"`: the run ends at the failed
"Step 4/4" send, after the attestation but before any receive
submission. -/
def trMsg6 : List Ev :=
  [.notify 0, .submitTx (.approve 25000000) "a", .pollTx "a" "CONFIRMED",
    .notify 1, .notify 2, .submitTx (.burn 25000000 5000 26) "b",
    .pollTx "b" "CONFIRMED", .notify 3, .notify 4, .attestReq 1, .notify 5]

/-! ## Theorems -/

/-! ## Arithmetic helper lemmas -/

lemma digit_isnt_ws {c : Char} (h : c.isDigit = true) : c.isWhitespace = false := by
  simp only [Char.isDigit, Bool.and_eq_true, decide_eq_true_eq] at h
  simp only [Char.isWhitespace, Bool.or_eq_false_iff, decide_eq_false_iff_not]
  refine ⟨⟨⟨?_, ?_⟩, ?_⟩, ?_⟩ <;> rintro rfl <;> exact absurd h (by decide)

lemma digit_ne_plus {c : Char} (h : c.isDigit = true) : c ≠ '+' := by
  rintro rfl; exact absurd h (by decide)

lemma digit_ne_minus {c : Char} (h : c.isDigit = true) : c ≠ '-' := by
  rintro rfl; exact absurd h (by decide)

lemma dropWhile_eq_self_of_all_digits {l : List Char}
    (h : ∀ c ∈ l, c.isDigit = true) : l.dropWhile Char.isWhitespace = l := by
  cases l with
  | nil => rfl
  | cons c rest =>
    rw [List.dropWhile_cons, digit_isnt_ws (h c (by simp))]
    simp

lemma trimChars_of_all_digits {l : List Char}
    (h : ∀ c ∈ l, c.isDigit = true) : trimChars l = l := by
  unfold trimChars
  rw [dropWhile_eq_self_of_all_digits h,
      dropWhile_eq_self_of_all_digits (by intro c hc; exact h c (List.mem_reverse.mp hc)),
      List.reverse_reverse]

lemma digitsToNat_of_all_digits {l : List Char} (hne : l ≠ [])
    (h : ∀ c ∈ l, c.isDigit = true) : digitsToNat l = some (natOfDigits l) := by
  unfold digitsToNat
  rw [if_pos]
  exact ⟨hne, List.all_eq_true.mpr (by intro c hc; exact h c hc)⟩

lemma jsStrToBigInt_digits {l : List Char} (hne : l ≠ [])
    (h : ∀ c ∈ l, c.isDigit = true) :
    jsStrToBigInt l = some (natOfDigits l : Int) := by
  unfold jsStrToBigInt
  rw [trimChars_of_all_digits h]
  cases l with
  | nil => exact absurd rfl hne
  | cons c rest =>
    have hc := h c (by simp)
    show (if c = '+' then (digitsToNat rest).map Int.ofNat
          else if c = '-' then (digitsToNat rest).map (fun n => -(n : Int))
          else (digitsToNat (c :: rest)).map Int.ofNat)
        = some (natOfDigits (c :: rest) : Int)
    rw [if_neg (digit_ne_plus hc), if_neg (digit_ne_minus hc),
        digitsToNat_of_all_digits (by simp) h]
    rfl

/-! ## Claim C3: base-unit conversion -/

/-- C3 counterexample: `"0.5"` is a decimal amount string with one (hence at
most six) fractional digits, yet the conversion
`BigInt(amount) * BigInt(10 ** 6)` fails on it (`BigInt("0.5")` throws a
`SyntaxError`), so the claimed exact reversible conversion does not exist for
it.  The first conjunct records that `"0.5"` satisfies the claim's
precondition (digit integer part, nonempty digit fractional part of length
at most six); the second that the code's conversion rejects it. -/
theorem usdcBaseUnits_decimal_counterexample :
    (['0'].all Char.isDigit = true ∧ ['5'].all Char.isDigit = true ∧
      ['5'].length ≤ 6) ∧
    usdcBaseUnits (String.mk (['0'] ++ '.' :: ['5'])) = none := by
  exact ⟨by decide, by decide⟩

/-- C3 (amended): for amount strings with zero fractional digits — nonempty
all-digit strings — the base-unit conversion of line 192 is exact and
reversible: it yields `value × 10^6`, and truncating division by `10^6`
(BigInt division) recovers the original value.  Amount strings with a
fractional part are rejected by the conversion (see the counterexample). -/
theorem usdcBaseUnits_integer_exact (l : List Char) (hne : l ≠ [])
    (h : ∀ c ∈ l, c.isDigit = true) :
    usdcBaseUnits (String.mk l) = some ((natOfDigits l : Int) * 1000000) ∧
    Int.tdiv ((natOfDigits l : Int) * 1000000) 1000000 = (natOfDigits l : Int) := by
  constructor
  · unfold usdcBaseUnits jsBigIntOfString
    rw [show (String.mk l).data = l from rfl, jsStrToBigInt_digits hne h]
    rfl
  · exact Int.mul_tdiv_cancel _ (by decide)

/-- C3 witness: the amended theorem applied to the concrete integer amount
string `"25"`. -/
theorem usdcBaseUnits_integer_exact_witness :
    usdcBaseUnits (String.mk ['2', '5'])
        = some ((natOfDigits ['2', '5'] : Int) * 1000000) ∧
    Int.tdiv ((natOfDigits ['2', '5'] : Int) * 1000000) 1000000
        = (natOfDigits ['2', '5'] : Int) :=
  usdcBaseUnits_integer_exact ['2', '5'] (by decide) (by decide)

/-! ## Claim C6: burn max fee -/

/-- C6: for every non-negative integer base-unit amount the burn step's max
fee (line 249) is the truncating integer division by 5000, which on
non-negative inputs is the floor division of the naturals; in particular it
is 0 at 0, 0 at 4999 and 1 at 5000. -/
theorem maxFee_floor_div :
    (∀ n : ℕ, maxFee (n : Int) = ((n / 5000 : ℕ) : Int)) ∧
    maxFee 0 = 0 ∧ maxFee 4999 = 0 ∧ maxFee 5000 = 1 := by
  refine ⟨fun n => ?_, by decide, by decide, by decide⟩
  unfold maxFee
  exact_mod_cast (Int.ofNat_tdiv n 5000).symm

/-! ## Claim C7: recipient padding -/

/-- C7: the 32-byte recipient padding is idempotent (padding the already
32-byte padded value changes nothing), injective on 20-byte destination
addresses, and extracting the address from the padded value round-trips
exactly. -/
theorem pad_idem_inj_roundtrip (a₁ a₂ : List Nat)
    (h₁ : a₁.length = 20) (h₂ : a₂.length = 20) :
    pad (pad a₁) = pad a₁ ∧ (pad a₁ = pad a₂ → a₁ = a₂) ∧
    unpadAddress (pad a₁) = a₁ := by
  refine ⟨?_, ?_, ?_⟩
  · simp [pad, h₁]
  · intro heq
    unfold pad at heq
    rw [h₁, h₂] at heq
    exact List.append_cancel_left heq
  · unfold unpadAddress pad
    rw [h₁, show (12 : ℕ) = (List.replicate (32 - 20) (0 : ℕ)).length by simp,
        List.drop_left]

/-- C7 witness: the padding properties at the concrete 20-byte address
`[0, 1, …, 19]`. -/
theorem pad_idem_inj_roundtrip_witness :
    pad (pad (List.range 20)) = pad (List.range 20) ∧
    (pad (List.range 20) = pad (List.range 20) → List.range 20 = List.range 20) ∧
    unpadAddress (pad (List.range 20)) = List.range 20 :=
  pad_idem_inj_roundtrip (List.range 20) (List.range 20) (by decide) (by decide)

lemma pollAttest_succeeds (svc : Nat → AttestResp) (m att : String) :
    ∀ (k a f : Nat), k < f →
    (∀ j, a ≤ j → j < a + k → (svc j).retryable = true) →
    svc (a + k) = .http200 "complete" m att →
    ∃ t, pollAttest svc a f = (t, .success m att) ∧ t.length = k + 1 := by
  intro k
  induction k with
  | zero =>
    intro a f hf _ hc
    obtain ⟨f', rfl⟩ : ∃ f', f = f' + 1 := ⟨f - 1, by omega⟩
    rw [Nat.add_zero] at hc
    exact ⟨[.attestReq a], by simp [pollAttest, hc], rfl⟩
  | succ k ih =>
    intro a f hf hr hc
    obtain ⟨f', rfl⟩ : ∃ f', f = f' + 1 := ⟨f - 1, by omega⟩
    have hra : (svc a).retryable = true := hr a (le_refl a) (by omega)
    have hc' : svc (a + 1 + k) = .http200 "complete" m att := by
      rw [show a + 1 + k = a + (k + 1) by omega]; exact hc
    obtain ⟨t, ht, hlen⟩ := ih (a + 1) f' (by omega)
      (fun j h1 h2 => hr j (by omega) (by omega)) hc'
    cases hsvc : svc a with
    | http200 status m₂ a₂ =>
      rw [hsvc] at hra
      have hs : ¬ status = "complete" := by
        simpa [AttestResp.retryable] using hra
      exact ⟨.attestReq a :: t, by simp [pollAttest, hsvc, hs, ht], by simp [hlen]⟩
    | notFound =>
      exact ⟨.attestReq a :: t, by simp [pollAttest, hsvc, ht], by simp [hlen]⟩
    | otherError msg =>
      rw [hsvc] at hra
      exact absurd hra (by simp [AttestResp.retryable])

lemma pollAttest_timeout (svc : Nat → AttestResp) :
    ∀ (f a : Nat), (∀ j, a ≤ j → j < a + f → (svc j).retryable = true) →
    ∃ t, pollAttest svc a f = (t, .timeout) ∧ t.length = f := by
  intro f
  induction f with
  | zero => exact fun a _ => ⟨[], rfl, rfl⟩
  | succ f ih =>
    intro a hr
    have hra : (svc a).retryable = true := hr a (le_refl a) (by omega)
    obtain ⟨t, ht, hlen⟩ := ih (a + 1) (fun j h1 h2 => hr j (by omega) (by omega))
    cases hsvc : svc a with
    | http200 status m₂ a₂ =>
      rw [hsvc] at hra
      have hs : ¬ status = "complete" := by
        simpa [AttestResp.retryable] using hra
      exact ⟨.attestReq a :: t, by simp [pollAttest, hsvc, hs, ht], by simp [hlen]⟩
    | notFound =>
      exact ⟨.attestReq a :: t, by simp [pollAttest, hsvc, ht], by simp [hlen]⟩
    | otherError msg =>
      rw [hsvc] at hra
      exact absurd hra (by simp [AttestResp.retryable])

lemma pollAttest_aborts (svc : Nat → AttestResp) (msg : String) :
    ∀ (k a f : Nat), k < f →
    (∀ j, a ≤ j → j < a + k → (svc j).retryable = true) →
    svc (a + k) = .otherError msg →
    ∃ t, pollAttest svc a f = (t, .failure msg) ∧ t.length = k + 1 := by
  intro k
  induction k with
  | zero =>
    intro a f hf _ hc
    obtain ⟨f', rfl⟩ : ∃ f', f = f' + 1 := ⟨f - 1, by omega⟩
    rw [Nat.add_zero] at hc
    exact ⟨[.attestReq a], by simp [pollAttest, hc], rfl⟩
  | succ k ih =>
    intro a f hf hr hc
    obtain ⟨f', rfl⟩ : ∃ f', f = f' + 1 := ⟨f - 1, by omega⟩
    have hra : (svc a).retryable = true := hr a (le_refl a) (by omega)
    have hc' : svc (a + 1 + k) = .otherError msg := by
      rw [show a + 1 + k = a + (k + 1) by omega]; exact hc
    obtain ⟨t, ht, hlen⟩ := ih (a + 1) f' (by omega)
      (fun j h1 h2 => hr j (by omega) (by omega)) hc'
    cases hsvc : svc a with
    | http200 status m₂ a₂ =>
      rw [hsvc] at hra
      have hs : ¬ status = "complete" := by
        simpa [AttestResp.retryable] using hra
      exact ⟨.attestReq a :: t, by simp [pollAttest, hsvc, hs, ht], by simp [hlen]⟩
    | notFound =>
      exact ⟨.attestReq a :: t, by simp [pollAttest, hsvc, ht], by simp [hlen]⟩
    | otherError msg₂ =>
      rw [hsvc] at hra
      exact absurd hra (by simp [AttestResp.retryable])

lemma pollAttest_length_le (svc : Nat → AttestResp) :
    ∀ (f a : Nat), (pollAttest svc a f).1.length ≤ f := by
  intro f
  induction f with
  | zero => intro a; simp [pollAttest]
  | succ f ih =>
    intro a
    cases hsvc : svc a with
    | http200 status m₂ a₂ =>
      by_cases hs : status = "complete" <;>
        simp [pollAttest, hsvc, hs]
      exact ih (a + 1)
    | notFound =>
      simp only [pollAttest, hsvc, List.length_cons]
      exact Nat.succ_le_succ (ih (a + 1))
    | otherError msg => simp [pollAttest, hsvc]

/-! ## Claim C4: attestation polling is bounded by 30 attempts -/

/-- C4: `waitForAttestation` succeeds whenever the service reports status
`"complete"` on any attempt `k` from 1 to 30 (the earlier attempts having
been retryable), issuing exactly `k` requests; when every one of the 30
attempts is retryable it times out after exactly 30 requests; and no run
ever issues more than 30 requests (so never a 31st). -/
theorem waitForAttestation_bounded :
    (∀ (svc : Nat → AttestResp) (k : Nat) (m att : String), 1 ≤ k → k ≤ 30 →
      (∀ j, 1 ≤ j → j < k → (svc j).retryable = true) →
      svc k = .http200 "complete" m att →
      ∃ t, waitForAttestation svc = (t, .success m att) ∧ t.length = k) ∧
    (∀ svc : Nat → AttestResp,
      (∀ j, 1 ≤ j → j ≤ 30 → (svc j).retryable = true) →
      ∃ t, waitForAttestation svc = (t, .timeout) ∧ t.length = 30) ∧
    (∀ svc : Nat → AttestResp, (waitForAttestation svc).1.length ≤ 30) := by
  refine ⟨?_, ?_, ?_⟩
  · intro svc k m att h1 h30 hr hc
    obtain ⟨t, ht, hlen⟩ := pollAttest_succeeds svc m att (k - 1) 1 30 (by omega)
      (fun j hj1 hj2 => hr j hj1 (by omega))
      (by rw [show 1 + (k - 1) = k by omega]; exact hc)
    exact ⟨t, ht, by omega⟩
  · intro svc hr
    exact pollAttest_timeout svc 30 1 (fun j hj1 hj2 => hr j hj1 (by omega))
  · intro svc
    exact pollAttest_length_le svc 30 1

/-- C4 witness: success on attempt 1 with one request, and timeout after
exactly 30 unsuccessful attempts. -/
theorem waitForAttestation_bounded_witness :
    (∃ t, waitForAttestation svcFirst = (t, .success "0xmsg" "0xsig") ∧
      t.length = 1) ∧
    (∃ t, waitForAttestation svcNever = (t, .timeout) ∧ t.length = 30) :=
  ⟨waitForAttestation_bounded.1 svcFirst 1 "0xmsg" "0xsig" (by decide) (by decide)
      (fun j hj1 hj2 => absurd hj2 (by omega)) rfl,
    waitForAttestation_bounded.2.1 svcNever (fun j _ _ => rfl)⟩

/-! ## Claim C5: 404 retries, any other error aborts -/

/-- C5: a 404 response consumes one attempt and the poll is retried — one
iteration with a 404 response is exactly one request event followed by the
same loop at the next attempt with one unit of fuel fewer — while a non-404
error on attempt `k ≤ 30` (earlier attempts retryable) aborts the wait
immediately at the `k`-th request, propagating that error. -/
theorem attestation_404_retries_other_aborts :
    (∀ (svc : Nat → AttestResp) (a f : Nat), svc a = .notFound →
      pollAttest svc a (f + 1)
        = (Ev.attestReq a :: (pollAttest svc (a + 1) f).1,
            (pollAttest svc (a + 1) f).2)) ∧
    (∀ (svc : Nat → AttestResp) (k : Nat) (msg : String), 1 ≤ k → k ≤ 30 →
      (∀ j, 1 ≤ j → j < k → (svc j).retryable = true) →
      svc k = .otherError msg →
      ∃ t, waitForAttestation svc = (t, .failure msg) ∧ t.length = k) := by
  constructor
  · intro svc a f h
    simp [pollAttest, h]
  · intro svc k msg h1 h30 hr hc
    obtain ⟨t, ht, hlen⟩ := pollAttest_aborts svc msg (k - 1) 1 30 (by omega)
      (fun j hj1 hj2 => hr j hj1 (by omega))
      (by rw [show 1 + (k - 1) = k by omega]; exact hc)
    exact ⟨t, ht, by omega⟩

/-- C5 witness: a 404 on attempt 1 unfolds to one request plus a retry, and a
non-404 error on attempt 2 (after a 404 on attempt 1) aborts after exactly
two requests with the error propagated. -/
theorem attestation_404_retries_other_aborts_witness :
    (pollAttest svcNever 1 1
      = (Ev.attestReq 1 :: (pollAttest svcNever 2 0).1,
          (pollAttest svcNever 2 0).2)) ∧
    (∃ t, waitForAttestation svcBoom = (t, .failure "boom") ∧ t.length = 2) :=
  ⟨attestation_404_retries_other_aborts.1 svcNever 1 0 rfl,
    attestation_404_retries_other_aborts.2 svcBoom 2 "boom" (by decide) (by decide)
      (fun j hj1 hj2 => by
        have : j = 1 := by omega
        subst this
        decide)
      rfl⟩

/-! ## Inversion lemmas for successful stages -/

lemma bindStep_ok {E α β : Type} {x : List E × StepRes α}
    {f : α → List E × StepRes β} {tr : List E} {b : β}
    (h : bindStep x f = (tr, StepRes.ok b)) :
    ∃ t₁ a t₂, x = (t₁, .ok a) ∧ f a = (t₂, .ok b) ∧ tr = t₁ ++ t₂ := by
  obtain ⟨t, r⟩ := x
  cases r with
  | ok a =>
    rcases hfa : f a with ⟨t₂, r₂⟩
    simp only [bindStep, hfa] at h
    injection h with h1 h2
    exact ⟨t, a, t₂, rfl, by rw [hfa, h2], h1.symm⟩
  | err m => simp [bindStep] at h
  | hung => simp [bindStep] at h

lemma notifyStage_ok {env : TEnv} {k : Nat} {t : List Ev} {u : Unit}
    (h : notifyStage env k = (t, .ok u)) : t = [Ev.notify k] := by
  by_cases hm : env.msgOk k = true
  · unfold notifyStage at h
    rw [if_pos hm] at h
    injection h with h1 h2
    exact h1.symm
  · unfold notifyStage at h
    rw [if_neg hm] at h
    simp at h

lemma cfgStage_ok {present : Bool} {t : List Ev} {u : Unit}
    (h : cfgStage present = (t, .ok u)) : t = [] := by
  cases present
  · simp [cfgStage] at h
  · have h' : (([], StepRes.ok ()) : List Ev × StepRes Unit) = (t, .ok u) := h
    injection h' with h1 h2
    exact h1.symm

lemma destDomainStage_ok {env : TEnv} {t : List Ev} {d : Nat}
    (h : destDomainStage env = (t, .ok d)) : t = [] := by
  cases hd : env.destDomain with
  | none => simp [destDomainStage, hd] at h
  | some d' =>
    unfold destDomainStage at h
    rw [hd] at h
    injection h with h1 h2
    exact h1.symm

lemma amountStage_ok {amount : String} {t : List Ev} {u : Int}
    (h : amountStage amount = (t, .ok u)) : t = [] := by
  cases hj : jsBigIntOfString amount with
  | none => simp [amountStage, hj] at h
  | some v =>
    unfold amountStage at h
    rw [hj] at h
    injection h with h1 h2
    exact h1.symm

lemma pollStage_ok {ft txId : String} :
    ∀ {ss : List TxStatus} {t : List Ev} {s : TxStatus},
    pollStage ft txId ss = (t, .ok s) →
    Ev.pollTx txId "CONFIRMED" ∈ t ∧ ∀ e ∈ t, ∃ st, e = Ev.pollTx txId st := by
  intro ss
  induction ss with
  | nil => intro t s h; simp [pollStage] at h
  | cons s₀ rest ih =>
    intro t s h
    unfold pollStage at h
    by_cases h1 : s₀.state = "FAILED"
    · rw [if_pos h1] at h; simp at h
    · rw [if_neg h1] at h
      by_cases h2 : s₀.state = "CONFIRMED"
      · rw [if_pos h2] at h
        injection h with ht hr
        subst ht
        exact ⟨by simp, by intro e he; simp at he; exact ⟨"CONFIRMED", he⟩⟩
      · rw [if_neg h2] at h
        rcases hps : pollStage ft txId rest with ⟨t', r'⟩
        rw [hps] at h
        injection h with ht hr
        subst ht
        have hr' : r' = StepRes.ok s := hr
        obtain ⟨hmem, hall⟩ := ih (by rw [hps, hr'])
        refine ⟨List.mem_cons_of_mem _ hmem, ?_⟩
        intro e he
        rcases List.mem_cons.mp he with h | h
        · exact ⟨s₀.state, h⟩
        · exact hall e h

lemma pollAttest_success_mem {svc : Nat → AttestResp} {f a : Nat}
    {t : List Ev} {m att : String}
    (h : pollAttest svc a f = (t, .success m att)) :
    ∃ k, Ev.attestReq k ∈ t := by
  cases f with
  | zero => simp [pollAttest] at h
  | succ f =>
    refine ⟨a, ?_⟩
    cases hsvc : svc a with
    | http200 status m₂ a₂ =>
      by_cases hs : status = "complete" <;> simp [pollAttest, hsvc, hs] at h <;>
        rw [← h.1] <;> simp
    | notFound =>
      simp [pollAttest, hsvc] at h
      rw [← h.1]; simp
    | otherError msg => simp [pollAttest, hsvc] at h

lemma pollAttest_all_attestReq (svc : Nat → AttestResp) :
    ∀ (f a : Nat), ∀ e ∈ (pollAttest svc a f).1, ∃ k, e = Ev.attestReq k := by
  intro f
  induction f with
  | zero => intro a e he; simp [pollAttest] at he
  | succ f ih =>
    intro a e he
    cases hsvc : svc a with
    | http200 status m₂ a₂ =>
      by_cases hs : status = "complete"
      · simp [pollAttest, hsvc, hs] at he
        exact ⟨a, he⟩
      · simp [pollAttest, hsvc, hs] at he
        rcases he with he | he
        exacts [⟨a, he⟩, ih (a + 1) e he]
    | notFound =>
      simp [pollAttest, hsvc] at he
      rcases he with he | he
      exacts [⟨a, he⟩, ih (a + 1) e he]
    | otherError msg =>
      simp [pollAttest, hsvc] at he
      exact ⟨a, he⟩

lemma attestStage_ok {svc : Nat → AttestResp} {t : List Ev} {p : String × String}
    (h : attestStage svc = (t, .ok p)) :
    (∃ k, Ev.attestReq k ∈ t) ∧ ∀ e ∈ t, ∃ k, e = Ev.attestReq k := by
  unfold attestStage at h
  rcases hw : waitForAttestation svc with ⟨t', o⟩
  rw [hw] at h
  cases o with
  | success m a =>
    injection h with h1 h2
    refine ⟨?_, ?_⟩
    · obtain ⟨k, hk⟩ := pollAttest_success_mem hw
      exact ⟨k, by rw [← h1]; exact hk⟩
    · intro e he
      have hall := pollAttest_all_attestReq svc 30 1
      rw [show (pollAttest svc 1 30).1 = t' from congrArg Prod.fst hw] at hall
      exact hall e (by rw [h1]; exact he)
  | timeout => simp at h
  | failure msg => simp at h

lemma noFailPoll_append {a b : List Ev} (ha : noFailPoll a)
    (hb : noFailPoll b) : noFailPoll (a ++ b) := by
  intro id h
  rcases List.mem_append.mp h with h | h
  exacts [ha id h, hb id h]

lemma invStep_bind {α β : Type} {x : List Ev × StepRes α}
    {f : α → List Ev × StepRes β} (hx : InvStep x)
    (hf : ∀ a, InvStep (f a)) : InvStep (bindStep x f) := by
  obtain ⟨t, r⟩ := x
  cases r with
  | ok a =>
    have hP : noFailPoll t := by
      rcases hx with h | ⟨t', id, he, hP', m, hres⟩
      · exact h
      · exact absurd hres (by simp)
    show InvStep (t ++ (f a).1, (f a).2)
    rcases hf a with h | ⟨t', id, he, hP', m, hres⟩
    · exact Or.inl (noFailPoll_append hP h)
    · exact Or.inr ⟨t ++ t', id,
        by show t ++ (f a).1 = _; rw [he, List.append_assoc],
        noFailPoll_append hP hP', m, hres⟩
  | err m =>
    show InvStep (t, (StepRes.err m : StepRes β))
    rcases hx with h | ⟨t', id, he, hP', m', hres⟩
    · exact Or.inl h
    · have hres' : StepRes.err (α := α) m = .err m' := hres
      have hm : m = m' := by injection hres'
      exact Or.inr ⟨t', id, he, hP', m', by rw [hm]⟩
  | hung =>
    show InvStep (t, (StepRes.hung : StepRes β))
    rcases hx with h | ⟨t', id, he, hP', m', hres⟩
    · exact Or.inl h
    · exact absurd hres (by simp)

lemma invStep_of_noFail {α : Type} {x : List Ev × StepRes α}
    (h : noFailPoll x.1) : InvStep x := Or.inl h

lemma invStep_notifyStage (env : TEnv) (k : Nat) :
    InvStep (notifyStage env k) := by
  apply invStep_of_noFail
  intro id h
  unfold notifyStage at h
  by_cases hm : env.msgOk k = true
  · rw [if_pos hm] at h; simp at h
  · rw [if_neg hm] at h; simp at h

lemma invStep_cfgStage (present : Bool) : InvStep (cfgStage present) := by
  apply invStep_of_noFail
  intro id h
  cases present <;> simp [cfgStage] at h

lemma invStep_destDomainStage (env : TEnv) : InvStep (destDomainStage env) := by
  apply invStep_of_noFail
  intro id h
  cases hd : env.destDomain <;> simp [destDomainStage, hd] at h

lemma invStep_amountStage (amount : String) : InvStep (amountStage amount) := by
  apply invStep_of_noFail
  intro id h
  cases hj : jsBigIntOfString amount <;> simp [amountStage, hj] at h

lemma invStep_submitStage (k : TxKind) (txId : String) :
    InvStep (submitStage k txId) := by
  apply invStep_of_noFail
  intro id h
  simp [submitStage] at h

lemma invStep_attestStage (svc : Nat → AttestResp) :
    InvStep (attestStage svc) := by
  apply invStep_of_noFail
  intro id h
  unfold attestStage at h
  rcases hw : waitForAttestation svc with ⟨t', o⟩
  rw [hw] at h
  have hall := pollAttest_all_attestReq svc 30 1
  rw [show (pollAttest svc 1 30).1 = t' from congrArg Prod.fst hw] at hall
  cases o <;> simp only [] at h <;>
    · obtain ⟨k, hk⟩ := hall _ h
      cases hk

lemma invStep_pollStage (ft txId : String) :
    ∀ ss : List TxStatus, InvStep (pollStage ft txId ss) := by
  intro ss
  induction ss with
  | nil =>
    apply invStep_of_noFail
    intro id h
    simp [pollStage] at h
  | cons s rest ih =>
    by_cases h1 : s.state = "FAILED"
    · right
      refine ⟨[], txId, ?_, by intro id h; simp at h, ft, ?_⟩ <;>
        simp [pollStage, h1]
    · by_cases h2 : s.state = "CONFIRMED"
      · apply invStep_of_noFail
        intro id h
        simp [pollStage, h1, h2] at h
      · rcases ih with hP | ⟨t', id', he, hP', m, hres⟩
        · apply invStep_of_noFail
          intro id h
          simp only [pollStage, if_neg h1, if_neg h2] at h
          rcases List.mem_cons.mp h with h | h
          · exact h1 (by injection h with _ hst; exact hst.symm)
          · exact hP id h
        · right
          refine ⟨Ev.pollTx txId s.state :: t', id', ?_, ?_, m, ?_⟩
          · show (pollStage ft txId (s :: rest)).1 = _
            simp only [pollStage, if_neg h1, if_neg h2]
            rw [he]
            rfl
          · intro id h
            rcases List.mem_cons.mp h with h | h
            · exact h1 (by injection h with _ hst; exact hst.symm)
            · exact hP' id h
          · show (pollStage ft txId (s :: rest)).2 = _
            simp only [pollStage, if_neg h1, if_neg h2]
            exact hres

lemma invStep_runTransfer (env : TEnv) (amount : String) :
    InvStep (runTransfer env amount) := by
  unfold runTransfer
  apply invStep_bind (invStep_amountStage amount); intro usdc
  apply invStep_bind (invStep_notifyStage env 0); intro u
  apply invStep_bind (invStep_cfgStage env.sourceConfigured); intro u
  apply invStep_bind (invStep_submitStage _ _); intro u
  apply invStep_bind (invStep_pollStage _ _ _); intro u
  apply invStep_bind (invStep_notifyStage env 1); intro u
  apply invStep_bind (invStep_notifyStage env 2); intro u
  apply invStep_bind (invStep_destDomainStage env); intro destDom
  apply invStep_bind (invStep_submitStage _ _); intro u
  apply invStep_bind (invStep_pollStage _ _ _); intro u
  apply invStep_bind (invStep_notifyStage env 3); intro u
  apply invStep_bind (invStep_notifyStage env 4); intro u
  apply invStep_bind (invStep_attestStage _); intro att
  apply invStep_bind (invStep_notifyStage env 5); intro u
  apply invStep_bind (invStep_notifyStage env 6); intro u
  apply invStep_bind (invStep_cfgStage env.destConfigured); intro u
  apply invStep_bind (invStep_submitStage _ _); intro u
  apply invStep_bind (invStep_pollStage _ _ _); intro u
  apply invStep_bind (invStep_notifyStage env 7); intro u
  exact invStep_of_noFail (by intro id h; simp at h)

lemma mem_left_of_append_single {α : Type} (x' x : α) :
    ∀ (pre t' post : List α), t' ++ [x'] = pre ++ x :: post → post ≠ [] →
    x ∈ t' := by
  intro pre
  induction pre with
  | nil =>
    intro t' post h hne
    cases t' with
    | nil =>
      injection h with h1 h2
      exact absurd h2.symm hne
    | cons c t'' =>
      injection h with h1 h2
      exact h1 ▸ List.mem_cons_self _ _
  | cons p pre' ih =>
    intro t' post h hne
    cases t' with
    | nil =>
      injection h with h1 h2
      exact absurd h2.symm (by simp)
    | cons c t'' =>
      injection h with h1 h2
      exact List.mem_cons_of_mem _ (ih t'' post h2 hne)

/-! ## Claim C1: submission order of a transfer -/

/-- C1 counterexample: a fully successful transfer over a configured network
pair submits exactly three contract-call transactions, not four — the attest
step issues attestation-service requests, not a contract-call
transaction. -/
theorem transfer_three_submissions_counterexample :
    runTransfer envOK "25" = (trOK, .ok ("a", "b", "r")) ∧
    (submitTags trOK).length = 3 := ⟨rfl, rfl⟩

/-- C1 (amended): every successful run of `crossChainTransfer` submits
exactly three contract-call transactions, tagged approve, burn, receive in
that order; the burn submission is preceded by a status poll of the approve
transaction observing `"CONFIRMED"`; and the receive submission is preceded
(after the burn submission) by a status poll of the burn transaction
observing `"CONFIRMED"` and by at least one attestation request — i.e. the
four steps run in the order approve → burn → attest → receive, each step
gated on the previous step's confirmation. -/
theorem crossChainTransfer_step_order (env : TEnv) (amt : String)
    (tr : List Ev) (ids : String × String × String)
    (h : runTransfer env amt = (tr, StepRes.ok ids)) :
    submitTags tr = [TxTag.approve, TxTag.burn, TxTag.receive] ∧
    ∃ (p₁ p₂ p₃ : List Ev) (kb kr : TxKind),
      tr = p₁ ++ Ev.submitTx kb env.burnTxId ::
        (p₂ ++ Ev.submitTx kr env.receiveTxId :: p₃) ∧
      kb.tag = TxTag.burn ∧ kr.tag = TxTag.receive ∧
      Ev.pollTx env.approveTxId "CONFIRMED" ∈ p₁ ∧
      Ev.pollTx env.burnTxId "CONFIRMED" ∈ p₂ ∧
      (∃ k, Ev.attestReq k ∈ p₂) := by
  unfold runTransfer at h
  obtain ⟨t1, usdc, r1, hs1, h1, e1⟩ := bindStep_ok h
  obtain ⟨t2, u2, r2, hs2, h2, e2⟩ := bindStep_ok h1
  obtain ⟨t3, u3, r3, hs3, h3, e3⟩ := bindStep_ok h2
  obtain ⟨t4, u4, r4, hs4, h4, e4⟩ := bindStep_ok h3
  obtain ⟨pa, sa, r5, hs5, h5, e5⟩ := bindStep_ok h4
  obtain ⟨t6, u6, r6, hs6, h6, e6⟩ := bindStep_ok h5
  obtain ⟨t7, u7, r7, hs7, h7, e7⟩ := bindStep_ok h6
  obtain ⟨t8, destDom, r8, hs8, h8, e8⟩ := bindStep_ok h7
  obtain ⟨t9, u9, r9, hs9, h9, e9⟩ := bindStep_ok h8
  obtain ⟨pb, sb, r10, hs10, h10, e10⟩ := bindStep_ok h9
  obtain ⟨t11, u11, r11, hs11, h11, e11⟩ := bindStep_ok h10
  obtain ⟨t12, u12, r12, hs12, h12, e12⟩ := bindStep_ok h11
  obtain ⟨ta, att, r13, hs13, h13, e13⟩ := bindStep_ok h12
  obtain ⟨t14, u14, r14, hs14, h14, e14⟩ := bindStep_ok h13
  obtain ⟨t15, u15, r15, hs15, h15, e15⟩ := bindStep_ok h14
  obtain ⟨t16, u16, r16, hs16, h16, e16⟩ := bindStep_ok h15
  obtain ⟨t17, u17, r17, hs17, h17, e17⟩ := bindStep_ok h16
  obtain ⟨pr, sr, r18, hs18, h18, e18⟩ := bindStep_ok h17
  obtain ⟨t19, u19, r19, hs19, h19, e19⟩ := bindStep_ok h18
  have e20 : r19 = [] := by
    injection h19 with ha hb
    exact ha.symm
  have h1e : t1 = [] := amountStage_ok hs1
  have h2e : t2 = [Ev.notify 0] := notifyStage_ok hs2
  have h3e : t3 = [] := cfgStage_ok hs3
  have h4e : t4 = [Ev.submitTx (TxKind.approve usdc) env.approveTxId] :=
    (congrArg Prod.fst hs4).symm
  have h6e : t6 = [Ev.notify 1] := notifyStage_ok hs6
  have h7e : t7 = [Ev.notify 2] := notifyStage_ok hs7
  have h8e : t8 = [] := destDomainStage_ok hs8
  have h9e : t9 = [Ev.submitTx (TxKind.burn usdc (maxFee usdc) destDom)
      env.burnTxId] := (congrArg Prod.fst hs9).symm
  have h11e : t11 = [Ev.notify 3] := notifyStage_ok hs11
  have h12e : t12 = [Ev.notify 4] := notifyStage_ok hs12
  have h14e : t14 = [Ev.notify 5] := notifyStage_ok hs14
  have h15e : t15 = [Ev.notify 6] := notifyStage_ok hs15
  have h16e : t16 = [] := cfgStage_ok hs16
  have h17e : t17 = [Ev.submitTx (TxKind.receive att.1 att.2)
      env.receiveTxId] := (congrArg Prod.fst hs17).symm
  have h19e : t19 = [Ev.notify 7] := notifyStage_ok hs19
  have htr : tr = [] ++ ([Ev.notify 0] ++ ([] ++
      ([Ev.submitTx (TxKind.approve usdc) env.approveTxId] ++ (pa ++
      ([Ev.notify 1] ++ ([Ev.notify 2] ++ ([] ++
      ([Ev.submitTx (TxKind.burn usdc (maxFee usdc) destDom) env.burnTxId] ++
      (pb ++ ([Ev.notify 3] ++ ([Ev.notify 4] ++ (ta ++
      ([Ev.notify 5] ++ ([Ev.notify 6] ++ ([] ++
      ([Ev.submitTx (TxKind.receive att.1 att.2) env.receiveTxId] ++
      (pr ++ ([Ev.notify 7] ++ [])))))))))))))))))) := by
    rw [e1, e2, e3, e4, e5, e6, e7, e8, e9, e10, e11, e12, e13, e14, e15,
      e16, e17, e18, e19, e20, h1e, h2e, h3e, h4e, h6e, h7e, h8e, h9e,
      h11e, h12e, h14e, h15e, h16e, h17e, h19e]
  obtain ⟨hpaC, hpaAll⟩ := pollStage_ok hs5
  obtain ⟨hpbC, hpbAll⟩ := pollStage_ok hs10
  obtain ⟨hta, htaAll⟩ := attestStage_ok hs13
  obtain ⟨hprC, hprAll⟩ := pollStage_ok hs18
  have hpa0 : pa.filterMap evSubmitTag = [] :=
    List.filterMap_eq_nil_iff.mpr
      (fun e he => by obtain ⟨st, rfl⟩ := hpaAll e he; rfl)
  have hpb0 : pb.filterMap evSubmitTag = [] :=
    List.filterMap_eq_nil_iff.mpr
      (fun e he => by obtain ⟨st, rfl⟩ := hpbAll e he; rfl)
  have hta0 : ta.filterMap evSubmitTag = [] :=
    List.filterMap_eq_nil_iff.mpr
      (fun e he => by obtain ⟨k, rfl⟩ := htaAll e he; rfl)
  have hpr0 : pr.filterMap evSubmitTag = [] :=
    List.filterMap_eq_nil_iff.mpr
      (fun e he => by obtain ⟨st, rfl⟩ := hprAll e he; rfl)
  constructor
  · rw [htr]
    simp [submitTags, List.filterMap_append, List.filterMap_cons,
      evSubmitTag, TxKind.tag, hpa0, hpb0, hta0, hpr0]
  · refine ⟨Ev.notify 0 :: Ev.submitTx (TxKind.approve usdc) env.approveTxId
        :: (pa ++ [Ev.notify 1, Ev.notify 2]),
      pb ++ ([Ev.notify 3, Ev.notify 4] ++ (ta ++ [Ev.notify 5, Ev.notify 6])),
      pr ++ [Ev.notify 7],
      TxKind.burn usdc (maxFee usdc) destDom,
      TxKind.receive att.1 att.2, ?_, rfl, rfl, ?_, ?_, ?_⟩
    · rw [htr]
      simp [List.append_assoc]
    · exact List.mem_cons_of_mem _ (List.mem_cons_of_mem _
        (List.mem_append_left _ hpaC))
    · exact List.mem_append_left _ hpbC
    · obtain ⟨k, hk⟩ := hta
      exact ⟨k, List.mem_append_right _ (List.mem_append_right _
        (List.mem_append_left _ hk))⟩

/-- C1 witness: the ordering theorem instantiated on the concrete successful
run `runTransfer envOK "25"`. -/
theorem crossChainTransfer_step_order_witness :
    submitTags trOK = [TxTag.approve, TxTag.burn, TxTag.receive] ∧
    ∃ (p₁ p₂ p₃ : List Ev) (kb kr : TxKind),
      trOK = p₁ ++ Ev.submitTx kb "b" ::
        (p₂ ++ Ev.submitTx kr "r" :: p₃) ∧
      kb.tag = TxTag.burn ∧ kr.tag = TxTag.receive ∧
      Ev.pollTx "a" "CONFIRMED" ∈ p₁ ∧
      Ev.pollTx "b" "CONFIRMED" ∈ p₂ ∧
      (∃ k, Ev.attestReq k ∈ p₂) :=
  crossChainTransfer_step_order envOK "25" trOK ("a", "b", "r") rfl

/-! ## Claim C2: a failed status poll aborts immediately -/

/-- C2: across the whole orchestration, if the trace contains a status poll
that observed `"FAILED"`, then that poll is the final event (no further
transaction is submitted, no further message is sent, nothing is rolled
back) and the run ends in a thrown error; any approve-confirmation poll
already in the trace stays in the trace (no rollback of confirmed steps). -/
theorem transfer_failed_poll_is_terminal (env : TEnv) (amt : String)
    (tr : List Ev) (res : StepRes (String × String × String))
    (pre post : List Ev) (id : String)
    (h : runTransfer env amt = (tr, res))
    (hsplit : tr = pre ++ Ev.pollTx id "FAILED" :: post) :
    post = [] ∧ (∃ m, res = StepRes.err m) ∧
    (Ev.pollTx env.approveTxId "CONFIRMED" ∈ pre →
      Ev.pollTx env.approveTxId "CONFIRMED" ∈ tr) := by
  have hi := invStep_runTransfer env amt
  rw [h] at hi
  rcases hi with hP | ⟨t', id', he, hP', m, hres⟩
  · exfalso
    have hmem : Ev.pollTx id "FAILED" ∈ tr := by
      rw [hsplit]
      exact List.mem_append_right _ (List.mem_cons_self _ _)
    exact hP id hmem
  · have he2 : tr = t' ++ [Ev.pollTx id' "FAILED"] := he
    have hres2 : res = StepRes.err m := hres
    have he' : t' ++ [Ev.pollTx id' "FAILED"]
        = pre ++ Ev.pollTx id "FAILED" :: post := by
      rw [← he2]
      exact hsplit
    have hpost : post = [] := by
      by_contra hne
      exact hP' id (mem_left_of_append_single _ _ pre t' post he' hne)
    exact ⟨hpost, ⟨m, hres2⟩,
      fun hmem => by rw [hsplit]; exact List.mem_append_left _ hmem⟩

/-- C2 witness: the theorem instantiated on the concrete run in which the
approve transaction confirms and the burn transaction's first status poll
reports `"FAILED"` — the failed poll ends the trace, the run throws, and the
approve-confirmed poll remains in the trace. -/
theorem transfer_failed_poll_is_terminal_witness :
    ([] : List Ev) = [] ∧
    (∃ m, (StepRes.err "Burn transaction failed"
        : StepRes (String × String × String)) = StepRes.err m) ∧
    (Ev.pollTx envBurnFail.approveTxId "CONFIRMED" ∈ preBF →
      Ev.pollTx envBurnFail.approveTxId "CONFIRMED" ∈ trBF) :=
  transfer_failed_poll_is_terminal envBurnFail "25" trBF
    (.err "Burn transaction failed") preBF [] "b" rfl rfl

/-! ## Claim C8: a progress-notification failure and the orchestration -/

/-- C8 counterexample: two environments identical except that in the second
every `bot.sendMessage` rejects; the transfer succeeds in the first and
aborts with the notification error in the second — so the orchestration does
not complete-or-fail independently of notification delivery, and notifier
failures are not logged-and-ignored but propagate. -/
theorem transfer_depends_on_notifier_counterexample :
    runTransfer envOK "25" = (trOK, .ok ("a", "b", "r")) ∧
    runTransfer envMsgFail "25" = ([], .err "sendMessage failed") :=
  ⟨rfl, rfl⟩

lemma notifyStage_ok_msg {env : TEnv} {k : Nat} {t : List Ev} {u : Unit}
    (h : notifyStage env k = (t, .ok u)) : env.msgOk k = true := by
  by_cases hm : env.msgOk k = true
  · exact hm
  · unfold notifyStage at h
    rw [if_neg hm] at h
    simp at h

lemma runTransfer_ok_msgOk {env : TEnv} {amt : String} {tr : List Ev}
    {ids : String × String × String}
    (h : runTransfer env amt = (tr, .ok ids)) :
    ∀ j, j ≤ 7 → env.msgOk j = true := by
  unfold runTransfer at h
  obtain ⟨t1, usdc, r1, hs1, h1, e1⟩ := bindStep_ok h
  obtain ⟨t2, u2, r2, hs2, h2, e2⟩ := bindStep_ok h1
  obtain ⟨t3, u3, r3, hs3, h3, e3⟩ := bindStep_ok h2
  obtain ⟨t4, u4, r4, hs4, h4, e4⟩ := bindStep_ok h3
  obtain ⟨pa, sa, r5, hs5, h5, e5⟩ := bindStep_ok h4
  obtain ⟨t6, u6, r6, hs6, h6, e6⟩ := bindStep_ok h5
  obtain ⟨t7, u7, r7, hs7, h7, e7⟩ := bindStep_ok h6
  obtain ⟨t8, destDom, r8, hs8, h8, e8⟩ := bindStep_ok h7
  obtain ⟨t9, u9, r9, hs9, h9, e9⟩ := bindStep_ok h8
  obtain ⟨pb, sb, r10, hs10, h10, e10⟩ := bindStep_ok h9
  obtain ⟨t11, u11, r11, hs11, h11, e11⟩ := bindStep_ok h10
  obtain ⟨t12, u12, r12, hs12, h12, e12⟩ := bindStep_ok h11
  obtain ⟨ta, att, r13, hs13, h13, e13⟩ := bindStep_ok h12
  obtain ⟨t14, u14, r14, hs14, h14, e14⟩ := bindStep_ok h13
  obtain ⟨t15, u15, r15, hs15, h15, e15⟩ := bindStep_ok h14
  obtain ⟨t16, u16, r16, hs16, h16, e16⟩ := bindStep_ok h15
  obtain ⟨t17, u17, r17, hs17, h17, e17⟩ := bindStep_ok h16
  obtain ⟨pr, sr, r18, hs18, h18, e18⟩ := bindStep_ok h17
  obtain ⟨t19, u19, r19, hs19, h19, e19⟩ := bindStep_ok h18
  intro j hj
  interval_cases j
  · exact notifyStage_ok_msg hs2
  · exact notifyStage_ok_msg hs6
  · exact notifyStage_ok_msg hs7
  · exact notifyStage_ok_msg hs11
  · exact notifyStage_ok_msg hs12
  · exact notifyStage_ok_msg hs14
  · exact notifyStage_ok_msg hs15
  · exact notifyStage_ok_msg hs19

lemma notifyTrunc {β : Type} (env : TEnv) (k : Nat)
    (hm : env.msgOk k = false) :
    ∀ g : Unit → List Ev × StepRes β,
    bindStep (notifyStage env k) g = ([], .err "sendMessage failed") := by
  intro g
  simp [bindStep, notifyStage, hm]

lemma allEv_bind {α β : Type} {Q : Ev → Prop} {x : List Ev × StepRes α}
    {f : α → List Ev × StepRes β} (hx : AllEv Q x)
    (hf : ∀ a, AllEv Q (f a)) : AllEv Q (bindStep x f) := by
  obtain ⟨t, r⟩ := x
  cases r with
  | ok a =>
    intro e he
    have he' : e ∈ t ++ (f a).1 := he
    rcases List.mem_append.mp he' with h | h
    · exact hx e h
    · exact hf a e h
  | err m =>
    intro e he
    exact hx e he
  | hung =>
    intro e he
    exact hx e he

lemma allEv_pure {α : Type} {Q : Ev → Prop} (r : StepRes α) :
    AllEv Q (([] : List Ev), r) := by
  intro e he
  simp at he

lemma allEv_amountStage {Q : Ev → Prop} (amt : String) :
    AllEv Q (amountStage amt) := by
  intro e he
  cases hj : jsBigIntOfString amt <;> simp [amountStage, hj] at he

lemma allEv_cfgStage {Q : Ev → Prop} (present : Bool) :
    AllEv Q (cfgStage present) := by
  intro e he
  cases present <;> simp [cfgStage] at he

lemma allEv_destDomainStage {Q : Ev → Prop} (env : TEnv) :
    AllEv Q (destDomainStage env) := by
  intro e he
  cases hd : env.destDomain <;> simp [destDomainStage, hd] at he

lemma allEv_notifyStage {Q : Ev → Prop} (env : TEnv) (k : Nat)
    (hQ : Q (Ev.notify k)) : AllEv Q (notifyStage env k) := by
  intro e he
  by_cases hm : env.msgOk k = true
  · unfold notifyStage at he
    rw [if_pos hm] at he
    have he' : e = Ev.notify k := by simpa using he
    rw [he']
    exact hQ
  · unfold notifyStage at he
    rw [if_neg hm] at he
    simp at he

lemma allEv_submitStage {Q : Ev → Prop} (k : TxKind) (txId : String)
    (hQ : Q (Ev.submitTx k txId)) : AllEv Q (submitStage k txId) := by
  intro e he
  have he' : e = Ev.submitTx k txId := by simpa [submitStage] using he
  rw [he']
  exact hQ

lemma allEv_pollStage {Q : Ev → Prop} (ft txId : String)
    (hQ : ∀ st, Q (Ev.pollTx txId st)) :
    ∀ ss : List TxStatus, AllEv Q (pollStage ft txId ss) := by
  intro ss
  induction ss with
  | nil =>
    intro e he
    simp [pollStage] at he
  | cons s rest ih =>
    intro e he
    by_cases h1 : s.state = "FAILED"
    · simp [pollStage, h1] at he
      rw [he]
      exact hQ _
    · by_cases h2 : s.state = "CONFIRMED"
      · simp [pollStage, h1, h2] at he
        rw [he]
        exact hQ _
      · simp only [pollStage, if_neg h1, if_neg h2] at he
        rcases List.mem_cons.mp he with he | he
        · rw [he]
          exact hQ _
        · exact ih e he

lemma allEv_attestStage {Q : Ev → Prop} (svc : Nat → AttestResp)
    (hQ : ∀ j, Q (Ev.attestReq j)) : AllEv Q (attestStage svc) := by
  intro e he
  unfold attestStage at he
  rcases hw : waitForAttestation svc with ⟨t2, o⟩
  rw [hw] at he
  have hall := pollAttest_all_attestReq svc 30 1
  rw [show (pollAttest svc 1 30).1 = t2 from congrArg Prod.fst hw] at hall
  cases o <;> simp only [] at he <;>
    · obtain ⟨j, hj⟩ := hall e he
      rw [hj]
      exact hQ j

/-- C8 (amended): every `bot.sendMessage` in `crossChainTransfer` is
awaited inside the `try` whose `catch` rethrows, so a failure of ANY of the
eight awaited progress sends (index `k`, in source order) aborts the
orchestration: the run never returns success, and no transaction of a step
later than the failed send is ever submitted — a failure of the first send
(before "Step 1/4" completes) means no submission at all, a failure of
either send before the burn (approve-confirmed or "Step 2/4") means no burn
and no receive submission, and a failure of any send before the receive
(up to "Step 4/4") means no receive submission. -/
theorem transfer_notify_failure_aborts (env : TEnv) (amt : String)
    (tr : List Ev) (res : StepRes (String × String × String)) (k : Nat)
    (h : runTransfer env amt = (tr, res)) (hk : env.msgOk k = false)
    (hk7 : k ≤ 7) :
    (∀ ids, res ≠ StepRes.ok ids) ∧
    (k = 0 → ∀ kind id, Ev.submitTx kind id ∉ tr) ∧
    (k ≤ 2 → ∀ kind id, kind.tag = TxTag.burn ∨ kind.tag = TxTag.receive →
      Ev.submitTx kind id ∉ tr) ∧
    (k ≤ 6 → ∀ kind id, kind.tag = TxTag.receive →
      Ev.submitTx kind id ∉ tr) := by
  have hok : ∀ ids, res ≠ StepRes.ok ids := by
    intro ids hres
    rw [hres] at h
    have := runTransfer_ok_msgOk h k hk7
    rw [hk] at this
    cases this
  have hpart3 : k ≤ 2 →
      ∀ kind id, kind.tag = TxTag.burn ∨ kind.tag = TxTag.receive →
      Ev.submitTx kind id ∉ tr := by
    intro hk2 kind id hta hmem
    have hQn : ∀ n, (fun e => ∀ kind id,
        kind.tag = TxTag.burn ∨ kind.tag = TxTag.receive →
        e ≠ Ev.submitTx kind id) (Ev.notify n) := by
      intro n kind id hta2
      simp
    have hQp : ∀ (i : String) st, (fun e => ∀ kind id,
        kind.tag = TxTag.burn ∨ kind.tag = TxTag.receive →
        e ≠ Ev.submitTx kind id) (Ev.pollTx i st) := by
      intro i st kind id hta2
      simp
    have hQa : ∀ (u : Int) (i : String), (fun e => ∀ kind id,
        kind.tag = TxTag.burn ∨ kind.tag = TxTag.receive →
        e ≠ Ev.submitTx kind id) (Ev.submitTx (TxKind.approve u) i) := by
      intro u i kind id hta2 heq
      injection heq with hk2e hie
      subst hk2e
      rcases hta2 with hta2 | hta2 <;> simp [TxKind.tag] at hta2
    interval_cases k
    · have hcut := notifyTrunc (β := String × String × String) env 0 hk
      unfold runTransfer at h
      simp only [hcut] at h
      have hall : AllEv (fun e => ∀ kind id,
          kind.tag = TxTag.burn ∨ kind.tag = TxTag.receive →
          e ≠ Ev.submitTx kind id) (tr, res) := by
        rw [← h]
        exact allEv_bind (allEv_amountStage amt) (fun _ => allEv_pure _)
      exact hall _ hmem kind id hta rfl
    · have hcut := notifyTrunc (β := String × String × String) env 1 hk
      unfold runTransfer at h
      simp only [hcut] at h
      have hall : AllEv (fun e => ∀ kind id,
          kind.tag = TxTag.burn ∨ kind.tag = TxTag.receive →
          e ≠ Ev.submitTx kind id) (tr, res) := by
        rw [← h]
        exact allEv_bind (allEv_amountStage amt) (fun usdc =>
          allEv_bind (allEv_notifyStage env 0 (hQn 0)) (fun _ =>
          allEv_bind (allEv_cfgStage env.sourceConfigured) (fun _ =>
          allEv_bind (allEv_submitStage _ _ (hQa usdc env.approveTxId)) (fun _ =>
          allEv_bind (allEv_pollStage _ _ (hQp env.approveTxId)
            env.approveStatuses) (fun _ => allEv_pure _)))))
      exact hall _ hmem kind id hta rfl
    · have hcut := notifyTrunc (β := String × String × String) env 2 hk
      unfold runTransfer at h
      simp only [hcut] at h
      have hall : AllEv (fun e => ∀ kind id,
          kind.tag = TxTag.burn ∨ kind.tag = TxTag.receive →
          e ≠ Ev.submitTx kind id) (tr, res) := by
        rw [← h]
        exact allEv_bind (allEv_amountStage amt) (fun usdc =>
          allEv_bind (allEv_notifyStage env 0 (hQn 0)) (fun _ =>
          allEv_bind (allEv_cfgStage env.sourceConfigured) (fun _ =>
          allEv_bind (allEv_submitStage _ _ (hQa usdc env.approveTxId)) (fun _ =>
          allEv_bind (allEv_pollStage _ _ (hQp env.approveTxId)
            env.approveStatuses) (fun _ =>
          allEv_bind (allEv_notifyStage env 1 (hQn 1)) (fun _ =>
            allEv_pure _))))))
      exact hall _ hmem kind id hta rfl
  have hpart4 : k ≤ 6 → ∀ kind id, kind.tag = TxTag.receive →
      Ev.submitTx kind id ∉ tr := by
    intro hk6 kind id hta hmem
    have hQn : ∀ n, (fun e => ∀ kind id, kind.tag = TxTag.receive →
        e ≠ Ev.submitTx kind id) (Ev.notify n) := by
      intro n kind id hta2
      simp
    have hQp : ∀ (i : String) st, (fun e => ∀ kind id,
        kind.tag = TxTag.receive → e ≠ Ev.submitTx kind id)
        (Ev.pollTx i st) := by
      intro i st kind id hta2
      simp
    have hQr : ∀ j, (fun e => ∀ kind id, kind.tag = TxTag.receive →
        e ≠ Ev.submitTx kind id) (Ev.attestReq j) := by
      intro j kind id hta2
      simp
    have hQa : ∀ (u : Int) (i : String), (fun e => ∀ kind id,
        kind.tag = TxTag.receive → e ≠ Ev.submitTx kind id)
        (Ev.submitTx (TxKind.approve u) i) := by
      intro u i kind id hta2 heq
      injection heq with hk2e hie
      subst hk2e
      simp [TxKind.tag] at hta2
    have hQb : ∀ (u f2 : Int) (d : Nat) (i : String), (fun e => ∀ kind id,
        kind.tag = TxTag.receive → e ≠ Ev.submitTx kind id)
        (Ev.submitTx (TxKind.burn u f2 d) i) := by
      intro u f2 d i kind id hta2 heq
      injection heq with hk2e hie
      subst hk2e
      simp [TxKind.tag] at hta2
    by_cases hk2 : k ≤ 2
    · exact hpart3 hk2 kind id (Or.inr hta) hmem
    · have hk3 : 3 ≤ k := by omega
      interval_cases k
      · have hcut := notifyTrunc (β := String × String × String) env 3 hk
        unfold runTransfer at h
        simp only [hcut] at h
        have hall : AllEv (fun e => ∀ kind id, kind.tag = TxTag.receive →
            e ≠ Ev.submitTx kind id) (tr, res) := by
          rw [← h]
          exact allEv_bind (allEv_amountStage amt) (fun usdc =>
            allEv_bind (allEv_notifyStage env 0 (hQn 0)) (fun _ =>
            allEv_bind (allEv_cfgStage env.sourceConfigured) (fun _ =>
            allEv_bind (allEv_submitStage _ _ (hQa usdc env.approveTxId)) (fun _ =>
            allEv_bind (allEv_pollStage _ _ (hQp env.approveTxId)
              env.approveStatuses) (fun _ =>
            allEv_bind (allEv_notifyStage env 1 (hQn 1)) (fun _ =>
            allEv_bind (allEv_notifyStage env 2 (hQn 2)) (fun _ =>
            allEv_bind (allEv_destDomainStage env) (fun destDom =>
            allEv_bind (allEv_submitStage _ _
              (hQb usdc (maxFee usdc) destDom env.burnTxId)) (fun _ =>
            allEv_bind (allEv_pollStage _ _ (hQp env.burnTxId)
              env.burnStatuses) (fun _ => allEv_pure _))))))))))
        exact hall _ hmem kind id hta rfl
      · have hcut := notifyTrunc (β := String × String × String) env 4 hk
        unfold runTransfer at h
        simp only [hcut] at h
        have hall : AllEv (fun e => ∀ kind id, kind.tag = TxTag.receive →
            e ≠ Ev.submitTx kind id) (tr, res) := by
          rw [← h]
          exact allEv_bind (allEv_amountStage amt) (fun usdc =>
            allEv_bind (allEv_notifyStage env 0 (hQn 0)) (fun _ =>
            allEv_bind (allEv_cfgStage env.sourceConfigured) (fun _ =>
            allEv_bind (allEv_submitStage _ _ (hQa usdc env.approveTxId)) (fun _ =>
            allEv_bind (allEv_pollStage _ _ (hQp env.approveTxId)
              env.approveStatuses) (fun _ =>
            allEv_bind (allEv_notifyStage env 1 (hQn 1)) (fun _ =>
            allEv_bind (allEv_notifyStage env 2 (hQn 2)) (fun _ =>
            allEv_bind (allEv_destDomainStage env) (fun destDom =>
            allEv_bind (allEv_submitStage _ _
              (hQb usdc (maxFee usdc) destDom env.burnTxId)) (fun _ =>
            allEv_bind (allEv_pollStage _ _ (hQp env.burnTxId)
              env.burnStatuses) (fun _ =>
            allEv_bind (allEv_notifyStage env 3 (hQn 3)) (fun _ =>
              allEv_pure _)))))))))))
        exact hall _ hmem kind id hta rfl
      · have hcut := notifyTrunc (β := String × String × String) env 5 hk
        unfold runTransfer at h
        simp only [hcut] at h
        have hall : AllEv (fun e => ∀ kind id, kind.tag = TxTag.receive →
            e ≠ Ev.submitTx kind id) (tr, res) := by
          rw [← h]
          exact allEv_bind (allEv_amountStage amt) (fun usdc =>
            allEv_bind (allEv_notifyStage env 0 (hQn 0)) (fun _ =>
            allEv_bind (allEv_cfgStage env.sourceConfigured) (fun _ =>
            allEv_bind (allEv_submitStage _ _ (hQa usdc env.approveTxId)) (fun _ =>
            allEv_bind (allEv_pollStage _ _ (hQp env.approveTxId)
              env.approveStatuses) (fun _ =>
            allEv_bind (allEv_notifyStage env 1 (hQn 1)) (fun _ =>
            allEv_bind (allEv_notifyStage env 2 (hQn 2)) (fun _ =>
            allEv_bind (allEv_destDomainStage env) (fun destDom =>
            allEv_bind (allEv_submitStage _ _
              (hQb usdc (maxFee usdc) destDom env.burnTxId)) (fun _ =>
            allEv_bind (allEv_pollStage _ _ (hQp env.burnTxId)
              env.burnStatuses) (fun _ =>
            allEv_bind (allEv_notifyStage env 3 (hQn 3)) (fun _ =>
            allEv_bind (allEv_notifyStage env 4 (hQn 4)) (fun _ =>
            allEv_bind (allEv_attestStage env.attest hQr) (fun _ =>
              allEv_pure _)))))))))))))
        exact hall _ hmem kind id hta rfl
      · have hcut := notifyTrunc (β := String × String × String) env 6 hk
        unfold runTransfer at h
        simp only [hcut] at h
        have hall : AllEv (fun e => ∀ kind id, kind.tag = TxTag.receive →
            e ≠ Ev.submitTx kind id) (tr, res) := by
          rw [← h]
          exact allEv_bind (allEv_amountStage amt) (fun usdc =>
            allEv_bind (allEv_notifyStage env 0 (hQn 0)) (fun _ =>
            allEv_bind (allEv_cfgStage env.sourceConfigured) (fun _ =>
            allEv_bind (allEv_submitStage _ _ (hQa usdc env.approveTxId)) (fun _ =>
            allEv_bind (allEv_pollStage _ _ (hQp env.approveTxId)
              env.approveStatuses) (fun _ =>
            allEv_bind (allEv_notifyStage env 1 (hQn 1)) (fun _ =>
            allEv_bind (allEv_notifyStage env 2 (hQn 2)) (fun _ =>
            allEv_bind (allEv_destDomainStage env) (fun destDom =>
            allEv_bind (allEv_submitStage _ _
              (hQb usdc (maxFee usdc) destDom env.burnTxId)) (fun _ =>
            allEv_bind (allEv_pollStage _ _ (hQp env.burnTxId)
              env.burnStatuses) (fun _ =>
            allEv_bind (allEv_notifyStage env 3 (hQn 3)) (fun _ =>
            allEv_bind (allEv_notifyStage env 4 (hQn 4)) (fun _ =>
            allEv_bind (allEv_attestStage env.attest hQr) (fun _ =>
            allEv_bind (allEv_notifyStage env 5 (hQn 5)) (fun _ =>
              allEv_pure _))))))))))))))
        exact hall _ hmem kind id hta rfl
  refine ⟨hok, ?_, hpart3, hpart4⟩
  intro hk0 kind id hmem
  subst hk0
  have hcut := notifyTrunc (β := String × String × String) env 0 hk
  unfold runTransfer at h
  simp only [hcut] at h
  have hall : AllEv (fun e => ∀ kind id, e ≠ Ev.submitTx kind id)
      (tr, res) := by
    rw [← h]
    exact allEv_bind (allEv_amountStage amt) (fun _ => allEv_pure _)
  exact hall _ hmem kind id rfl

/-- C8 witness: the theorem at the concrete environment in which only the
"Step 4/4" send (index 6) rejects — the run errs after the attestation and
never submits the receive transaction. -/
theorem transfer_notify_failure_aborts_witness :
    (∀ ids, (StepRes.err "sendMessage failed"
        : StepRes (String × String × String)) ≠ StepRes.ok ids) ∧
    ((6 : Nat) = 0 → ∀ kind id, Ev.submitTx kind id ∉ trMsg6) ∧
    ((6 : Nat) ≤ 2 →
      ∀ kind id, kind.tag = TxTag.burn ∨ kind.tag = TxTag.receive →
      Ev.submitTx kind id ∉ trMsg6) ∧
    ((6 : Nat) ≤ 6 → ∀ kind id, kind.tag = TxTag.receive →
      Ev.submitTx kind id ∉ trMsg6) :=
  transfer_notify_failure_aborts envMsg6Fail "25" trMsg6
    (.err "sendMessage failed") 6 rfl rfl (by decide)


lemma findOrCreateBankAccount_ok_none {u : DUser} {env : DEnv}
    {t : List DEv} {b : String} (hb : u.bankId = none)
    (h : findOrCreateBankAccount u env = (t, .ok b)) :
    t = [DEv.sendMsg 2, DEv.createBank, DEv.persistBank env.newBankId,
      DEv.sendMsg 3] ∧ b = env.newBankId := by
  unfold findOrCreateBankAccount at h
  rw [hb] at h
  have h' : (if env.createBankOk = true then
      if env.dMsgOk 3 = true then
        ([DEv.sendMsg 2, DEv.createBank, DEv.persistBank env.newBankId,
          DEv.sendMsg 3], StepRes.ok env.newBankId)
      else ([DEv.sendMsg 2, DEv.createBank, DEv.persistBank env.newBankId],
        StepRes.err "sendMessage failed")
    else ([DEv.sendMsg 2, DEv.createBank],
      StepRes.err "create bank account failed")) = (t, StepRes.ok b) := h
  by_cases hcb : env.createBankOk = true
  · rw [if_pos hcb] at h'
    by_cases hm3 : env.dMsgOk 3 = true
    · rw [if_pos hm3] at h'
      injection h' with h1 h2
      refine ⟨h1.symm, ?_⟩
      injection h2 with h3
      exact h3.symm
    · rw [if_neg hm3] at h'
      simp at h'
  · rw [if_neg hcb] at h'
    simp at h'

lemma findOrCreateBankAccount_ok_some {u : DUser} {env : DEnv}
    {t : List DEv} {b bi : String} (hb : u.bankId = some bi)
    (h : findOrCreateBankAccount u env = (t, .ok b)) :
    t = [DEv.sendMsg 1] ∧ b = bi := by
  unfold findOrCreateBankAccount at h
  rw [hb] at h
  have h' : (if env.dMsgOk 1 = true then ([DEv.sendMsg 1], StepRes.ok bi)
      else ([], StepRes.err "sendMessage failed")) = (t, StepRes.ok b) := h
  by_cases hm1 : env.dMsgOk 1 = true
  · rw [if_pos hm1] at h'
    injection h' with h1 h2
    refine ⟨h1.symm, ?_⟩
    injection h2 with h3
    exact h3.symm
  · rw [if_neg hm1] at h'
    simp at h'

lemma findOrCreateRecipientAddress_ok_none {u : DUser} {env : DEnv}
    {t : List DEv} {b : String} (hr : u.recipId = none)
    (h : findOrCreateRecipientAddress u env = (t, .ok b)) :
    t = [DEv.createRecip, DEv.persistRecip env.newRecipId] ∧
    b = env.newRecipId := by
  unfold findOrCreateRecipientAddress at h
  rw [hr] at h
  by_cases hcr : env.createRecipOk = true
  · rw [if_pos hcr] at h
    injection h with h1 h2
    refine ⟨h1.symm, ?_⟩
    injection h2 with h3
    exact h3.symm
  · rw [if_neg hcr] at h
    simp at h

lemma findOrCreateRecipientAddress_ok_some {u : DUser} {env : DEnv}
    {t : List DEv} {b ri : String} (hr : u.recipId = some ri)
    (h : findOrCreateRecipientAddress u env = (t, .ok b)) :
    t = [] ∧ b = ri := by
  unfold findOrCreateRecipientAddress at h
  rw [hr] at h
  injection h with h1 h2
  refine ⟨h1.symm, ?_⟩
  injection h2 with h3
  exact h3.symm

lemma awaitedMsg_ok {env : DEnv} {j : Nat} {t : List DEv} {v : Unit}
    (h : awaitedMsg env j = (t, .ok v)) : t = [DEv.sendMsg j] := by
  by_cases hm : env.dMsgOk j = true
  · unfold awaitedMsg at h
    rw [if_pos hm] at h
    injection h with h1 h2
    exact h1.symm
  · unfold awaitedMsg at h
    rw [if_neg hm] at h
    simp at h

lemma provTransferStage_ok {env : DEnv} {r destAddr : String} {t : List DEv}
    {v : Unit} (h : provTransferStage env r destAddr = (t, .ok v)) :
    t = [DEv.provTransfer r] := by
  by_cases ht : env.transferOk = true
  · unfold provTransferStage at h
    rw [if_pos ht] at h
    injection h with h1 h2
    exact h1.symm
  · unfold provTransferStage at h
    rw [if_neg ht] at h
    simp at h

lemma depositFlow_fresh_shape {u : DUser} {destAddr : String} {env : DEnv}
    {tr : List DEv} {ids : String × String × String} (hb : u.bankId = none)
    (hr : u.recipId = none)
    (h : executeMockDepositFlow u destAddr env = (tr, .ok ids)) :
    tr = [.sendMsg 0, .sendMsg 2, .createBank, .persistBank env.newBankId,
      .sendMsg 3, .getInstructions env.newBankId, .sendMsg 4, .sendMsg 5,
      .mockWire, .createRecip, .persistRecip env.newRecipId, .sendMsg 6,
      .provTransfer env.newRecipId, .sendMsg 7, .sendMsg 8, .bridgeCall,
      .sendMsg 9] := by
  unfold executeMockDepositFlow at h
  obtain ⟨t1, u1, r1, hs1, h1, e1⟩ := bindStep_ok h
  obtain ⟨t2, bankId, r2, hs2, h2, e2⟩ := bindStep_ok h1
  obtain ⟨t3, u3, r3, hs3, h3, e3⟩ := bindStep_ok h2
  obtain ⟨t4, u4, r4, hs4, h4, e4⟩ := bindStep_ok h3
  obtain ⟨t5, u5, r5, hs5, h5, e5⟩ := bindStep_ok h4
  obtain ⟨t6, u6, r6, hs6, h6, e6⟩ := bindStep_ok h5
  obtain ⟨t7, recipId, r7, hs7, h7, e7⟩ := bindStep_ok h6
  obtain ⟨t8, u8, r8, hs8, h8, e8⟩ := bindStep_ok h7
  obtain ⟨t9, u9, r9, hs9, h9, e9⟩ := bindStep_ok h8
  obtain ⟨t10, u10, r10, hs10, h10, e10⟩ := bindStep_ok h9
  obtain ⟨t11, u11, r11, hs11, h11, e11⟩ := bindStep_ok h10
  obtain ⟨t12, ids12, r12, hs12, h12, e12⟩ := bindStep_ok h11
  obtain ⟨t13, u13, r13, hs13, h13, e13⟩ := bindStep_ok h12
  have e14 : r13 = [] := by
    injection h13 with ha hbb
    exact ha.symm
  obtain ⟨h2t, h2b⟩ := findOrCreateBankAccount_ok_none hb hs2
  obtain ⟨h7t, h7b⟩ := findOrCreateRecipientAddress_ok_none hr hs7
  have h1t : t1 = [DEv.sendMsg 0] := (congrArg Prod.fst hs1).symm
  have h3t : t3 = [DEv.getInstructions bankId] := (congrArg Prod.fst hs3).symm
  have h4t : t4 = [DEv.sendMsg 4] := (congrArg Prod.fst hs4).symm
  have h5t : t5 = [DEv.sendMsg 5] := (congrArg Prod.fst hs5).symm
  have h6t : t6 = [DEv.mockWire] := (congrArg Prod.fst hs6).symm
  have h8t : t8 = [DEv.sendMsg 6] := (congrArg Prod.fst hs8).symm
  have h9t : t9 = [DEv.provTransfer recipId] := provTransferStage_ok hs9
  have h10t : t10 = [DEv.sendMsg 7] := awaitedMsg_ok hs10
  have h11t : t11 = [DEv.sendMsg 8] := awaitedMsg_ok hs11
  have h12t : t12 = [DEv.bridgeCall] := (congrArg Prod.fst hs12).symm
  have h13t : t13 = [DEv.sendMsg 9] := awaitedMsg_ok hs13
  rw [e1, e2, e3, e4, e5, e6, e7, e8, e9, e10, e11, e12, e13, e14,
    h1t, h2t, h3t, h4t, h5t, h6t, h7t, h8t, h9t, h10t, h11t, h12t, h13t,
    h2b, h7b]
  rfl

lemma depositFlow_stored_shape {u : DUser} {destAddr : String} {env : DEnv}
    {tr : List DEv} {ids : String × String × String} {bi ri : String}
    (hb : u.bankId = some bi) (hr : u.recipId = some ri)
    (h : executeMockDepositFlow u destAddr env = (tr, .ok ids)) :
    tr = [.sendMsg 0, .sendMsg 1, .getInstructions bi, .sendMsg 4,
      .sendMsg 5, .mockWire, .sendMsg 6, .provTransfer ri, .sendMsg 7,
      .sendMsg 8, .bridgeCall, .sendMsg 9] := by
  unfold executeMockDepositFlow at h
  obtain ⟨t1, u1, r1, hs1, h1, e1⟩ := bindStep_ok h
  obtain ⟨t2, bankId, r2, hs2, h2, e2⟩ := bindStep_ok h1
  obtain ⟨t3, u3, r3, hs3, h3, e3⟩ := bindStep_ok h2
  obtain ⟨t4, u4, r4, hs4, h4, e4⟩ := bindStep_ok h3
  obtain ⟨t5, u5, r5, hs5, h5, e5⟩ := bindStep_ok h4
  obtain ⟨t6, u6, r6, hs6, h6, e6⟩ := bindStep_ok h5
  obtain ⟨t7, recipId, r7, hs7, h7, e7⟩ := bindStep_ok h6
  obtain ⟨t8, u8, r8, hs8, h8, e8⟩ := bindStep_ok h7
  obtain ⟨t9, u9, r9, hs9, h9, e9⟩ := bindStep_ok h8
  obtain ⟨t10, u10, r10, hs10, h10, e10⟩ := bindStep_ok h9
  obtain ⟨t11, u11, r11, hs11, h11, e11⟩ := bindStep_ok h10
  obtain ⟨t12, ids12, r12, hs12, h12, e12⟩ := bindStep_ok h11
  obtain ⟨t13, u13, r13, hs13, h13, e13⟩ := bindStep_ok h12
  have e14 : r13 = [] := by
    injection h13 with ha hbb
    exact ha.symm
  obtain ⟨h2t, h2b⟩ := findOrCreateBankAccount_ok_some hb hs2
  obtain ⟨h7t, h7b⟩ := findOrCreateRecipientAddress_ok_some hr hs7
  have h1t : t1 = [DEv.sendMsg 0] := (congrArg Prod.fst hs1).symm
  have h3t : t3 = [DEv.getInstructions bankId] := (congrArg Prod.fst hs3).symm
  have h4t : t4 = [DEv.sendMsg 4] := (congrArg Prod.fst hs4).symm
  have h5t : t5 = [DEv.sendMsg 5] := (congrArg Prod.fst hs5).symm
  have h6t : t6 = [DEv.mockWire] := (congrArg Prod.fst hs6).symm
  have h8t : t8 = [DEv.sendMsg 6] := (congrArg Prod.fst hs8).symm
  have h9t : t9 = [DEv.provTransfer recipId] := provTransferStage_ok hs9
  have h10t : t10 = [DEv.sendMsg 7] := awaitedMsg_ok hs10
  have h11t : t11 = [DEv.sendMsg 8] := awaitedMsg_ok hs11
  have h12t : t12 = [DEv.bridgeCall] := (congrArg Prod.fst hs12).symm
  have h13t : t13 = [DEv.sendMsg 9] := awaitedMsg_ok hs13
  rw [e1, e2, e3, e4, e5, e6, e7, e8, e9, e10, e11, e12, e13, e14,
    h1t, h2t, h3t, h4t, h5t, h6t, h7t, h8t, h9t, h10t, h11t, h12t, h13t,
    h2b, h7b]
  rfl

/-! ## Claim C9: deposit-flow id resolution is idempotent -/

/-- C9: in a completed deposit, a user with neither stored id causes exactly
one bank-account creation call, exactly one persist of the returned
bank-account id, exactly one recipient-address creation call and exactly one
persist of the returned recipient id; a user with both ids stored causes
zero creation calls and zero persists, and the stored ids are the ones used
for the wire-instructions fetch and the custodial transfer. -/
theorem deposit_id_resolution_idempotent :
    (∀ (u : DUser) (destAddr : String) (env : DEnv) (tr : List DEv)
      (ids : String × String × String),
      u.bankId = none → u.recipId = none →
      executeMockDepositFlow u destAddr env = (tr, .ok ids) →
      tr.count DEv.createBank = 1 ∧
      tr.count (DEv.persistBank env.newBankId) = 1 ∧
      tr.count DEv.createRecip = 1 ∧
      tr.count (DEv.persistRecip env.newRecipId) = 1) ∧
    (∀ (u : DUser) (destAddr : String) (env : DEnv) (tr : List DEv)
      (ids : String × String × String) (bi ri : String),
      u.bankId = some bi → u.recipId = some ri →
      executeMockDepositFlow u destAddr env = (tr, .ok ids) →
      tr.count DEv.createBank = 0 ∧ tr.count DEv.createRecip = 0 ∧
      (∀ x, DEv.persistBank x ∉ tr) ∧ (∀ x, DEv.persistRecip x ∉ tr) ∧
      DEv.getInstructions bi ∈ tr ∧ DEv.provTransfer ri ∈ tr) := by
  constructor
  · intro u destAddr env tr ids hb hr h
    rw [depositFlow_fresh_shape hb hr h]
    refine ⟨?_, ?_, ?_, ?_⟩ <;> simp [List.count_cons]
  · intro u destAddr env tr ids bi ri hb hr h
    rw [depositFlow_stored_shape hb hr h]
    refine ⟨?_, ?_, ?_, ?_, ?_, ?_⟩ <;> simp [List.count_cons]

/-- C9 witness: the theorem at a fresh user and at a user with both ids
stored, in the all-successful deposit environment. -/
theorem deposit_id_resolution_idempotent_witness :
    (trFresh.count DEv.createBank = 1 ∧
      trFresh.count (DEv.persistBank "nb") = 1 ∧
      trFresh.count DEv.createRecip = 1 ∧
      trFresh.count (DEv.persistRecip "nr") = 1) ∧
    (trStored.count DEv.createBank = 0 ∧ trStored.count DEv.createRecip = 0 ∧
      (∀ x, DEv.persistBank x ∉ trStored) ∧
      (∀ x, DEv.persistRecip x ∉ trStored) ∧
      DEv.getInstructions "bank1" ∈ trStored ∧
      DEv.provTransfer "recip1" ∈ trStored) :=
  ⟨deposit_id_resolution_idempotent.1 uFresh "0xdest" denvOK trFresh
      ("a", "b", "r") rfl rfl rfl,
    deposit_id_resolution_idempotent.2 uStored "0xdest" denvOK trStored
      ("a", "b", "r") "bank1" "recip1" rfl rfl rfl⟩

/-! ## Claim C10: failure of the custodial transfer call -/

/-- C10: whenever the `POST /businessAccount/transfers` call happens in a
deposit run and is rejected, the whole flow aborts at that call: the result
is the thrown faucet-fallback error — the fixed instruction text telling
the user to fund the wallet from the Circle faucet, ending with the
destination wallet address — the bridge is never invoked, and the
provider's own error does not surface (the catch discards it rather than
rethrowing a bare provider failure). -/
theorem deposit_transfer_failure_faucet_fallback :
    ∀ (u : DUser) (destAddr : String) (env : DEnv) (tr : List DEv)
      (res : StepRes (String × String × String)) (r : String),
      executeMockDepositFlow u destAddr env = (tr, res) →
      env.transferOk = false →
      DEv.provTransfer r ∈ tr →
      res = .err (faucetFallbackMessage destAddr) ∧
      DEv.bridgeCall ∉ tr ∧
      (∃ p, faucetFallbackMessage destAddr = p ++ destAddr) := by
  intro u destAddr env tr res r h ht hmem
  suffices hs : res = .err (faucetFallbackMessage destAddr) ∧
      DEv.bridgeCall ∉ tr by
    exact ⟨hs.1, hs.2, faucetText, rfl⟩
  rcases hub : u.bankId with _ | bi <;> rcases hur : u.recipId with _ | ri <;>
    cases hm1 : env.dMsgOk 1 <;> cases hm3 : env.dMsgOk 3 <;>
    cases hcb : env.createBankOk <;> cases hcr : env.createRecipOk <;>
    simp_all [executeMockDepositFlow, bindStep, fireAndForget, awaitedMsg,
      findOrCreateBankAccount, findOrCreateRecipientAddress,
      provTransferStage, bridgeStage] <;>
    (obtain ⟨htr, hres⟩ := h
     subst htr
     subst hres
     simp_all)

/-- C10 witness: the theorem at the stored-ids user, destination address
`"0xdest"` and the environment whose transfer call rejects — the run ends at
the transfer with the faucet-fallback error naming `"0xdest"`. -/
theorem deposit_transfer_failure_faucet_fallback_witness :
    StepRes.err (α := String × String × String)
        (faucetFallbackMessage "0xdest")
      = .err (faucetFallbackMessage "0xdest") ∧
    DEv.bridgeCall ∉ trStoredFail ∧
    (∃ p, faucetFallbackMessage "0xdest" = p ++ "0xdest") :=
  deposit_transfer_failure_faucet_fallback uStored "0xdest" denvFail
    trStoredFail (.err (faucetFallbackMessage "0xdest")) "recip1"
    rfl rfl (by decide)

end RemiFi

